import Mathlib

/-!
Verification of `src/builder/penv_setup.py` (pioarduino platform-espressif32 fork).

The file embeds, as executable Lean definitions:
  * the version machinery the module imports and uses:
    `semantic_version.Version` (strict parse, `coerce`, precedence order,
    equality including build metadata, `truncate`), `SimpleSpec` (the
    "simple" native syntax parser and `Range.match`), and
    `platformio.package.version.pepver_to_semver` /
    `cast_version_to_semver`;
  * the module's own pure logic: `PLATFORMIO_URL_VERSION_RE` search,
    `get_executable_path`, `get_packages_to_install`, the `python_deps`
    manifest, and the module-level Python version guard;
  * the effectful provisioning functions (`ensure_penv_with_uv`,
    `setup_pipenv_in_package`, `_setup_pipenv_minimal`,
    `install_python_deps` with `_get_installed_uv_packages`,
    `install_esptool`, `_install_esptool_from_tl_install`,
    `_setup_certifi_env`, `_setup_python_environment_core`) as
    deterministic state-passing functions over an abstract file system,
    where the outcome of each external subprocess / socket call is an
    explicit oracle parameter and every observable action (print, stderr
    write, recursive delete, subprocess invocation, marker write,
    process spawn) is recorded in an event trace.  `sys.exit(n)` is
    modelled as `Except.error (Halt.exited n)`, an uncaught Python
    exception as `Except.error (Halt.raised msg)`.

Strings are processed as `List Char`; all inputs of interest are ASCII,
matching the Python module's data (`str.lower` etc. agree with
`Char.toLower` on ASCII).
-/

namespace PenvSetup

/-! ## Characters and strings -/

/-- ASCII lower-casing of a character list (Python `str.lower` on ASCII). -/
def lowerChars (cs : List Char) : List Char := cs.map Char.toLower

/-- Python `str.lower` on a `String` (ASCII data). -/
def toLowerStr (s : String) : String := ⟨lowerChars s.toList⟩

/-- Python whitespace stripped by `str.strip()`. -/
def isPySpace (c : Char) : Bool :=
  c = ' ' || c = '\t' || c = '\n' || c = '\r' || c = '\x0b' || c = '\x0c'

/-- Python `str.strip()`. -/
def trimStr (s : String) : String :=
  ⟨((s.toList.dropWhile isPySpace).reverse.dropWhile isPySpace).reverse⟩

/-- Python `str.startswith`. -/
def strStartsWith (s p : String) : Bool := p.toList.isPrefixOf s.toList

/-- Maximal run of ASCII digits (`\d+`, greedy): returns the run and the rest. -/
def digitSpan : List Char → List Char × List Char
  | [] => ([], [])
  | c :: rest =>
    if c.isDigit then
      let (d, r) := digitSpan rest
      (c :: d, r)
    else ([], c :: rest)

/-- `\w` of Python `re` on ASCII input: letters, digits, underscore. -/
def isWordChar (c : Char) : Bool := c.isAlphanum || c = '_'

/-- Maximal run of word characters (`\w+`, greedy). -/
def wordSpan : List Char → List Char × List Char
  | [] => ([], [])
  | c :: rest =>
    if isWordChar c then
      let (d, r) := wordSpan rest
      (c :: d, r)
    else ([], c :: rest)

/-- Character class `[0-9a-zA-Z.-]` used by semantic_version's regexes. -/
def isIdentChar (c : Char) : Bool := c.isAlphanum || c = '.' || c = '-'

/-- Python `str.isdigit` on ASCII strings: nonempty and all digits. -/
def isDigits (cs : List Char) : Bool := !cs.isEmpty && cs.all Char.isDigit

/-- Numeric value of a digit run (Python `int`). -/
def natOfDigits (cs : List Char) : Nat :=
  cs.foldl (fun n c => n * 10 + (c.toNat - '0'.toNat)) 0

/-- Split a character list at the first occurrence of `sep`
(Python `s.split(sep, 1)`): returns the part before and, when `sep`
occurs, the part after. -/
def splitFirst (sep : Char) : List Char → List Char × Option (List Char)
  | [] => ([], none)
  | c :: rest =>
    if c = sep then ([], some rest)
    else
      let (a, b) := splitFirst sep rest
      (c :: a, b)

/-- Helper for `splitAll`, accumulating the current field reversed. -/
def splitAllAux (sep : Char) : List Char → List Char → List (List Char)
  | [], acc => [acc.reverse]
  | c :: rest, acc =>
    if c = sep then acc.reverse :: splitAllAux sep rest []
    else splitAllAux sep rest (c :: acc)

/-- Split on every occurrence of `sep` (Python `s.split(sep)`);
`"a..b" ↦ ["a", "", "b"]`, `"" ↦ [""]`. -/
def splitAll (sep : Char) (cs : List Char) : List (List Char) :=
  splitAllAux sep cs []

/-! ## semantic_version.Version -/

/-- A parsed `semantic_version.Version` (never "partial" in this module).
`prerelease` and `build` are kept as raw identifier strings exactly as the
library stores them, so that `__eq__` (which compares the raw tuples,
build metadata included) is structural equality. -/
structure SemVer where
  major : Nat
  minor : Nat
  patch : Nat
  prerelease : List (List Char)
  build : List (List Char)
deriving DecidableEq, Repr

/-- Leading-zero test of the library's `_has_leading_zero`. -/
def hasLeadingZero : List Char → Bool
  | '0' :: _ :: _ => true
  | _ => false

/-- `Version._validate_identifiers`: every identifier nonempty; numeric
identifiers may not have leading zeros unless allowed. -/
def validIdentifiers (ids : List (List Char)) (allowLeadingZeroes : Bool) : Bool :=
  ids.all fun i =>
    !i.isEmpty && (allowLeadingZeroes || !(hasLeadingZero i && isDigits i))

/-- Strict parse of `semantic_version.Version`, i.e. the regex
`^(\d+)\.(\d+)\.(\d+)(?:-([0-9a-zA-Z.-]*))?(?:\+([0-9a-zA-Z.-]*))?$`
followed by the constructor's leading-zero and identifier validation.
`Except.error` models the `ValueError` the library raises. -/
def semverParseL (cs : List Char) : Except String SemVer :=
  if cs.isEmpty then .error "Invalid empty version string" else
  let (maj, r1) := digitSpan cs
  if maj.isEmpty then .error "Invalid version string" else
  match r1 with
  | '.' :: r2 =>
    let (mino, r3) := digitSpan r2
    if mino.isEmpty then .error "Invalid version string" else
    match r3 with
    | '.' :: r4 =>
      let (pat, r5) := digitSpan r4
      if pat.isEmpty then .error "Invalid version string" else
      -- the prerelease class excludes '+', the build class is last, so at
      -- most one '+' may occur, splitting prerelease from build
      let (preRaw, buildRaw) :=
        match r5 with
        | '-' :: r6 =>
          match splitFirst '+' r6 with
          | (a, b) => (some a, b)
        | '+' :: r6 => (none, some r6)
        | [] => (none, none)
        | _ => (some ['!'], none)   -- unmatched junk: force failure below
      let preOK := match preRaw with
                   | none => true
                   | some p => p.all isIdentChar
      let buildOK := match buildRaw with
                     | none => true
                     | some b => b.all isIdentChar
      if !(preOK && buildOK) then .error "Invalid version string" else
      if hasLeadingZero maj || hasLeadingZero mino || hasLeadingZero pat then
        .error "Invalid leading zero"
      else
        let prerelease := match preRaw with
                          | none => []
                          | some [] => []
                          | some p => splitAll '.' p
        let build := match buildRaw with
                     | none => []
                     | some [] => []
                     | some b => splitAll '.' b
        if !validIdentifiers prerelease false then .error "Invalid prerelease identifier" else
        if !validIdentifiers build true then .error "Invalid build identifier" else
        .ok { major := natOfDigits maj, minor := natOfDigits mino,
              patch := natOfDigits pat, prerelease, build }
    | _ => .error "Invalid version string"
  | _ => .error "Invalid version string"

/-- `semantic_version.Version(s)` on a `String`. -/
def semverParse (s : String) : Except String SemVer := semverParseL s.toList

/-- Leading match of `^\d+(?:\.\d+(?:\.\d+)?)?` (the `coerce` base
pattern): the matched text and the rest, or `none` when no digit leads. -/
def coerceBase (cs : List Char) : Option (List Char × List Char) :=
  let (d1, r1) := digitSpan cs
  if d1.isEmpty then none else
  match r1 with
  | '.' :: r2 =>
    let (d2, r3) := digitSpan r2
    if d2.isEmpty then some (d1, r1) else
    match r3 with
    | '.' :: r4 =>
      let (d3, r5) := digitSpan r4
      if d3.isEmpty then some (d1 ++ '.' :: d2, r3)
      else some (d1 ++ '.' :: d2 ++ '.' :: d3, r5)
    | _ => some (d1 ++ '.' :: d2, r3)
  | _ => some (d1, r1)

/-- `while version.count('.') < 2: version += '.0'` -/
def padVersion (v : List Char) : List Char :=
  match (v.filter (· = '.')).length with
  | 0 => v ++ ['.', '0', '.', '0']
  | 1 => v ++ ['.', '0']
  | _ => v

/-- `semantic_version.Version.coerce` (with `partial=False`): match the
numeric base, pad to three components, classify the rest into prerelease
and build after replacing every character outside `[a-zA-Z0-9+.-]` by
`-`, then delegate to the strict constructor. -/
def semverCoerceL (cs : List Char) : Except String SemVer :=
  match coerceBase cs with
  | none => .error "Version string lacks a numerical component"
  | some (base, rest) =>
    let version := padVersion base
    if rest.isEmpty then semverParseL version else
    let restC := rest.map fun c =>
      if c.isAlphanum || c = '+' || c = '.' || c = '-' then c else '-'
    match restC with
    | [] => semverParseL version
    | c :: tail =>
      let (prerel, build) :=
        if c = '+' then ([], tail)
        else if c = '.' then ([], tail)
        else if c = '-' then
          match splitFirst '+' tail with
          | (a, some b) => (a, b)
          | (a, none) => (a, [])
        else
          match splitFirst '+' restC with
          | (a, some b) => (a, b)
          | (a, none) => (a, [])
      let build := build.map fun c => if c = '+' then '.' else c
      let v1 := if prerel.isEmpty then version else version ++ '-' :: prerel
      let v2 := if build.isEmpty then v1 else v1 ++ '+' :: build
      semverParseL v2

/-- `Version.coerce` on a `String`. -/
def semverCoerce (s : String) : Except String SemVer := semverCoerceL s.toList

/-! ## platformio.package.version -/

/-- `re.match(r"^[\da-f]+$", value, flags=re.I)`: a hexadecimal commit
hash. -/
def isHexString (cs : List Char) : Bool :=
  !cs.isEmpty && cs.all fun c =>
    c.isDigit || ('a' ≤ c && c ≤ 'f') || ('A' ≤ c && c ≤ 'F')

/-- `platformio.package.version.cast_version_to_semver` with the default
arguments (`force=True`, `raise_exception=False`): strict parse, then
`coerce`, then the commit-hash / arbitrary-string fallbacks.  The final
fallback constructs `Version("0.0.0+" + value)`, which itself raises for
values that are not valid build metadata — that propagated `ValueError`
is the only way this function fails (besides `assert value` on `""`). -/
def cast_version_to_semver (value : List Char) : Except String SemVer :=
  if value.isEmpty then .error "AssertionError" else
  match semverParseL value with
  | .ok v => .ok v
  | .error _ =>
    match semverCoerceL value with
    | .ok v => .ok v
    | .error _ =>
      if isHexString value then
        semverParseL (('0' :: '.' :: '0' :: '.' :: '0' :: '+' :: 's' :: 'h' :: 'a' :: '.' :: []) ++ value)
      else
        semverParseL (('0' :: '.' :: '0' :: '.' :: '0' :: '+' :: []) ++ value)

/-- The alternation `(dev|a|b|rc|post)` of `pepver_to_semver`'s rewrite
pattern, tried left to right as Python `re` does. -/
def pepKeywordAt (cs : List Char) : Option (List Char × List Char) :=
  (match cs with
   | 'd' :: 'e' :: 'v' :: r => some (['d', 'e', 'v'], r)
   | _ => none) <|>
  (match cs with
   | 'a' :: r => some (['a'], r)
   | _ => none) <|>
  (match cs with
   | 'b' :: r => some (['b'], r)
   | _ => none) <|>
  (match cs with
   | 'r' :: 'c' :: r => some (['r', 'c'], r)
   | _ => none) <|>
  (match cs with
   | 'p' :: 'o' :: 's' :: 't' :: r => some (['p', 'o', 's', 't'], r)
   | _ => none)

/-- Match of `(\.\d+)\.?(dev|a|b|rc|post)` anchored at the current
position: returns group 1, group 2 and the remainder.  `\d+` is maximal
(the characters allowed to follow are never digits) and the optional dot
is tried greedily first, exactly as the Python engine does. -/
def pepMatchAt (cs : List Char) : Option (List Char × List Char × List Char) :=
  match cs with
  | '.' :: r =>
    let (d, r2) := digitSpan r
    if d.isEmpty then none else
    let withDot := match r2 with
                   | '.' :: r3 => pepKeywordAt r3
                   | _ => none
    match withDot <|> pepKeywordAt r2 with
    | some (kw, rest) => some ('.' :: d, kw, rest)
    | none => none
  | _ => none

/-- `re.sub(r"(\.\d+)\.?(dev|a|b|rc|post)", r"\1-\2.", pepver, 1)`:
leftmost match replaced once by `\1-\2.`. -/
def pepSub : List Char → List Char
  | [] => []
  | c :: rest =>
    match pepMatchAt (c :: rest) with
    | some (g1, g2, tail) => g1 ++ '-' :: (g2 ++ '.' :: tail)
    | none => c :: pepSub rest

/-- `platformio.package.version.pepver_to_semver`. -/
def pepver_to_semver (pepver : String) : Except String SemVer :=
  cast_version_to_semver (pepSub pepver.toList)

/-! ## PLATFORMIO_URL_VERSION_RE

`re.compile(r'/v?(\d+\.\d+\.\d+(?:[.-]\w+)?(?:\.\d+)?)(?:\.(?:zip|tar\.gz|tar\.bz2))?$', re.IGNORECASE)`
used with `.search(spec)`, group 1.

The hand-compiled matcher below reproduces the Python engine's leftmost
search and its backtracking preferences: each optional group is tried
present-first with the full continuation, and `\d+` / `\w+` are taken
maximally (exact here, because every continuation after them requires a
character that is not in their class — `.`, an archive extension, or the
end of the string — so a shorter run can never succeed). -/

/-- After group 1, the anchored tail `(?:\.(?:zip|tar\.gz|tar\.bz2))?$`
(case-insensitive) accepts exactly the empty rest or one archive
extension. -/
def urlTailOK (cs : List Char) : Bool :=
  cs.isEmpty ||
    (lowerChars cs = ['.', 'z', 'i', 'p'] ||
     lowerChars cs = ['.', 't', 'a', 'r', '.', 'g', 'z'] ||
     lowerChars cs = ['.', 't', 'a', 'r', '.', 'b', 'z', '2'])

/-- Continuation for `(?:\.\d+)?` (greedy: present first), returning the
completed group 1 on success. -/
def urlOpt2 (g : List Char) (cs : List Char) : Option (List Char) :=
  (match cs with
   | '.' :: rest =>
     let (d, rest2) := digitSpan rest
     if d.isEmpty then none
     else if urlTailOK rest2 then some (g ++ '.' :: d) else none
   | _ => none) <|>
  (if urlTailOK cs then some g else none)

/-- Continuation for `(?:[.-]\w+)?` (greedy: present first). -/
def urlOpt1 (g : List Char) (cs : List Char) : Option (List Char) :=
  (match cs with
   | c :: rest =>
     if c = '.' || c = '-' then
       let (w, rest2) := wordSpan rest
       if w.isEmpty then none else urlOpt2 (g ++ c :: w) rest2
     else none
   | [] => none) <|>
  urlOpt2 g cs

/-- `\d+\.\d+\.\d+` followed by the optional groups and the anchored
tail. -/
def urlMainVer (cs : List Char) : Option (List Char) :=
  let (d1, r1) := digitSpan cs
  if d1.isEmpty then none else
  match r1 with
  | '.' :: r2 =>
    let (d2, r3) := digitSpan r2
    if d2.isEmpty then none else
    match r3 with
    | '.' :: r4 =>
      let (d3, r5) := digitSpan r4
      if d3.isEmpty then none
      else urlOpt1 (d1 ++ '.' :: d2 ++ '.' :: d3) r5
    | _ => none
  | _ => none

/-- A match attempt anchored at the current position: `/` then `v?`
(case-insensitive, greedy) then the version group. -/
def urlMatchFrom (cs : List Char) : Option (List Char) :=
  match cs with
  | '/' :: rest =>
    (match rest with
     | c :: rest2 => if c = 'v' || c = 'V' then urlMainVer rest2 else none
     | [] => none) <|>
    urlMainVer rest
  | _ => none

/-- `PLATFORMIO_URL_VERSION_RE.search(s)`: leftmost successful start
position wins; returns group 1. -/
def urlSearchL : List Char → Option (List Char)
  | [] => none
  | c :: rest =>
    match urlMatchFrom (c :: rest) with
    | some g => some g
    | none => urlSearchL rest

/-- `PLATFORMIO_URL_VERSION_RE.search` on a `String`, group 1 as a
`String`. -/
def urlVersionSearch (s : String) : Option String :=
  (urlSearchL s.toList).map fun g => ⟨g⟩

/-! ## Version precedence (semantic_version ordering)

`Version.__lt__`/`__le__`/… compare `precedence_key`s, which drop build
metadata and map an empty prerelease to a maximal sentinel; prerelease
identifiers compare numerically when both are digit runs, any numeric
identifier is below any alphanumeric one, and alphanumeric identifiers
compare as strings.  `__eq__`/`__ne__` instead compare the full
`(major, minor, patch, prerelease, build)` tuples — structural equality
of `SemVer`. -/

/-- Comparison of two prerelease identifiers
(`NumericIdentifier` / `AlphaIdentifier`). -/
def identCompare (a b : List Char) : Ordering :=
  if isDigits a then
    if isDigits b then compare (natOfDigits a) (natOfDigits b) else .lt
  else
    if isDigits b then .gt else compare (String.mk a) (String.mk b)

/-- Lexicographic comparison of identifier tuples (Python tuple
comparison: a strict prefix is smaller). -/
def identListCompare : List (List Char) → List (List Char) → Ordering
  | [], [] => .eq
  | [], _ :: _ => .lt
  | _ :: _, [] => .gt
  | a :: as', b :: bs' =>
    match identCompare a b with
    | .eq => identListCompare as' bs'
    | o => o

/-- Comparison of prerelease keys: an empty prerelease becomes the
one-element tuple `(MaxIdentifier(),)`, above everything else. -/
def preKeyCompare (p q : List (List Char)) : Ordering :=
  match p, q with
  | [], [] => .eq
  | [], _ :: _ => .gt
  | _ :: _, [] => .lt
  | p, q => identListCompare p q

/-- `precedence_key` comparison: (major, minor, patch, prerelease key). -/
def precCompare (x y : SemVer) : Ordering :=
  match compare x.major y.major with
  | .eq =>
    match compare x.minor y.minor with
    | .eq =>
      match compare x.patch y.patch with
      | .eq => preKeyCompare x.prerelease y.prerelease
      | o => o
    | o => o
  | o => o

/-- `Version.truncate('prerelease')`: drop build metadata. -/
def SemVer.truncPre (v : SemVer) : SemVer := { v with build := [] }

/-- `Version.truncate()` (level `'patch'`): drop prerelease and build. -/
def SemVer.trunc (v : SemVer) : SemVer := { v with prerelease := [], build := [] }

/-- `Version.next_major()`. -/
def SemVer.nextMajor (v : SemVer) : SemVer :=
  if !v.prerelease.isEmpty && v.minor = 0 && v.patch = 0 then
    { major := v.major, minor := 0, patch := 0, prerelease := [], build := [] }
  else
    { major := v.major + 1, minor := 0, patch := 0, prerelease := [], build := [] }

/-- `Version.next_minor()`. -/
def SemVer.nextMinor (v : SemVer) : SemVer :=
  if !v.prerelease.isEmpty && v.patch = 0 then
    { major := v.major, minor := v.minor, patch := 0, prerelease := [], build := [] }
  else
    { major := v.major, minor := v.minor + 1, patch := 0, prerelease := [], build := [] }

/-- `Version.next_patch()`. -/
def SemVer.nextPatch (v : SemVer) : SemVer :=
  if !v.prerelease.isEmpty then
    { major := v.major, minor := v.minor, patch := v.patch, prerelease := [], build := [] }
  else
    { major := v.major, minor := v.minor, patch := v.patch + 1, prerelease := [], build := [] }

/-! ## semantic_version.SimpleSpec -/

inductive RangeOp where
  | eq | gt | gte | lt | lte | neq
deriving DecidableEq, Repr

/-- `Range.prerelease_policy`. -/
inductive PrePol where
  | natural | always | samepatch
deriving DecidableEq, Repr

/-- `Range.build_policy`. -/
inductive BuildPol where
  | implicit | strict
deriving DecidableEq, Repr

/-- A `Range` matcher.  Its constructor promotes the build policy to
`strict` when the target carries build metadata. -/
structure RangeM where
  op : RangeOp
  target : SemVer
  prePol : PrePol
  buildPol : BuildPol
deriving DecidableEq, Repr

/-- `Range.__init__`'s build-policy promotion. -/
def mkRange (op : RangeOp) (target : SemVer)
    (prePol : PrePol := .natural) (buildPol : BuildPol := .implicit) : RangeM :=
  { op, target, prePol,
    buildPol := if !target.build.isEmpty then .strict else buildPol }

/-- A spec clause (`Always` / `Range` / `AllOf` / `AnyOf`).  The library
keeps `AllOf`/`AnyOf` as frozensets; matching is a pure conjunction /
disjunction, so binary nodes are an equivalent representation. -/
inductive Clause where
  | always
  | rng (r : RangeM)
  | and2 (a b : Clause)
  | or2 (a b : Clause)
deriving DecidableEq, Repr

/-- `Always() & c = c`, otherwise `AllOf`. -/
def clauseAnd (a b : Clause) : Clause :=
  match a with
  | .always => b
  | _ => .and2 a b

/-- `Range.match(version)`. -/
def rangeMatch (r : RangeM) (version : SemVer) : Bool :=
  let version := if r.buildPol ≠ .strict then version.truncPre else version
  if !version.prerelease.isEmpty && r.prePol = .samepatch &&
      !(r.target.trunc = version.trunc) then
    false
  else
    match r.op with
    | .eq =>
      if r.buildPol = .strict then
        r.target.truncPre = version.truncPre && version.build = r.target.build
      else
        version = r.target
    | .gt => precCompare version r.target = .gt
    | .gte => precCompare version r.target ≠ .lt
    | .lt =>
      -- `<x.y.z` never matches a prerelease of `x.y.z` itself under the
      -- natural policy
      if !version.prerelease.isEmpty && r.prePol = .natural &&
          version.trunc = r.target.trunc && r.target.prerelease.isEmpty then
        false
      else precCompare version r.target = .lt
    | .lte => precCompare version r.target ≠ .gt
    | .neq =>
      if r.buildPol = .strict then
        !(r.target.truncPre = version.truncPre && version.build = r.target.build)
      else
        version ≠ r.target

/-- `Clause.match`. -/
def clauseMatch : Clause → SemVer → Bool
  | .always, _ => true
  | .rng r, v => rangeMatch r v
  | .and2 a b, v => clauseMatch a v && clauseMatch b v
  | .or2 a b, v => clauseMatch a v || clauseMatch b v

/-- The raw fields captured by `SimpleSpec.Parser.NAIVE_SPEC` for one
block.  `none` in `major`/`minor`/`patch` means the component was `*` or
absent (both are mapped to `None` by `parse_block`); `prerel`/`build`
distinguish an absent group (`none`) from a present empty one
(`some ""`). -/
structure NaiveBlock where
  op : String
  major : Option Nat
  minor : Option Nat
  patch : Option Nat
  prerel : Option (List Char)
  build : Option (List Char)
deriving Repr

/-- The operator alternation
`<|<=||=|==|>=|>|!=|\^|~|~=` of `NAIVE_SPEC`.  Taking the longest
operator first is equivalent to the engine's backtracking here, because a
version component can never start with `=` (so e.g. `<` followed by
`=1.2.3` always fails and the engine falls back to `<=`). -/
def opSplit (cs : List Char) : String × List Char :=
  match cs with
  | '<' :: '=' :: r => ("<=", r)
  | '<' :: r => ("<", r)
  | '>' :: '=' :: r => (">=", r)
  | '>' :: r => (">", r)
  | '=' :: '=' :: r => ("==", r)
  | '=' :: r => ("=", r)
  | '!' :: '=' :: r => ("!=", r)
  | '~' :: '=' :: r => ("~=", r)
  | '~' :: r => ("~", r)
  | '^' :: r => ("^", r)
  | r => ("", r)

/-- `NUMBER = r'\*|0|[1-9][0-9]*'`: `*`, a lone zero, or a digit run
without a leading zero.  Returns `none` for `*` (collapsed with the
absent case, as `parse_block` does via `EMPTY_VALUES`). -/
def numTok : List Char → Option (Option Nat × List Char)
  | '*' :: r => some (none, r)
  | '0' :: r => some (some 0, r)
  | c :: r =>
    if c.isDigit then
      let (d, r2) := digitSpan (c :: r)
      some (some (natOfDigits d), r2)
    else none
  | [] => none

/-- Match one comma-separated block against `NAIVE_SPEC`:
`^op major(\.minor(\.patch)?)?(-prerel)?(\+build)?$` with the classes
above.  Returns `none` where the library raises `ValueError`. -/
def naiveSpecMatch (block : List Char) : Option NaiveBlock :=
  let (op, r0) := opSplit block
  match numTok r0 with
  | none => none
  | some (major, r1) =>
    let step : List Char → Option (Option Nat) × List Char := fun r =>
      match r with
      | '.' :: r' =>
        match numTok r' with
        | some (n, r'') => (some n, r'')
        | none => (none, r)   -- group absent; the leftover '.' fails below
      | _ => (none, r)
    let (minor?, r2) := step r1
    let (patch?, r3) :=
      match minor? with
      | some _ => step r2
      | none => (none, r2)
    -- optional -prerel then optional +build, anchored at the end
    let (prerel, build, ok) :=
      match r3 with
      | [] => (none, none, true)
      | '-' :: r4 =>
        match splitFirst '+' r4 with
        | (p, none) => (some p, none, p.all isIdentChar)
        | (p, some b) => (some p, some b, p.all isIdentChar && b.all isIdentChar)
      | '+' :: r4 => (none, some r4, r4.all isIdentChar)
      | _ => (none, none, false)
    if !ok then none
    else
      some { op, major,
             minor := match minor? with | some n => n | none => none,
             patch := match patch? with | some n => n | none => none,
             prerel, build }

/-- `SimpleSpec.Parser.parse_block`: turn one matched block into a
clause, mirroring the library's case analysis (`''`/`'='` alias to
`'=='`; partial versions are zero-padded; `^`/`~`/`~=` become GTE∧LT
ranges; partial `==`/`!=`/`>`/`<=` get range semantics; `-`/`+`-suffixed
`!=`/`==` adjust the prerelease/build policies).  `none` models a raised
`ValueError`. -/
def parse_block (b : NaiveBlock) : Option Clause :=
  let prefixOp := if b.op = "=" || b.op = "" then "==" else b.op
  let target : SemVer :=
    match b.major, b.minor, b.patch with
    | none, _, _ => ⟨0, 0, 0, [], []⟩
    | some M, none, _ => ⟨M, 0, 0, [], []⟩
    | some M, some m, none => ⟨M, m, 0, [], []⟩
    | some M, some m, some p =>
      { major := M, minor := m, patch := p,
        prerelease :=
          match b.prerel with
          | some pr => if pr.isEmpty then [] else splitAll '.' pr
          | none => [],
        build :=
          match b.build with
          | some bu => if bu.isEmpty then [] else splitAll '.' bu
          | none => [] }
  if b.major.isNone && !(prefixOp = "==" || prefixOp = ">=") then none
  else if (b.major.isNone || b.minor.isNone || b.patch.isNone) &&
      ((match b.prerel with | some p => !p.isEmpty | none => false) ||
       (match b.build with | some bu => !bu.isEmpty | none => false)) then none
  else if b.build.isSome && !(prefixOp = "==" || prefixOp = "!=") then none
  else if prefixOp = "^" then
    -- the library bumps from `target.truncate()`
    let high := if target.major ≠ 0 then target.trunc.nextMajor
                else if target.minor ≠ 0 then target.trunc.nextMinor
                else target.trunc.nextPatch
    some (.and2 (.rng (mkRange .gte target)) (.rng (mkRange .lt high)))
  else if prefixOp = "~" then
    if b.major.isNone then none
    else
      let high := if b.minor.isNone then target.nextMajor else target.nextMinor
      some (.and2 (.rng (mkRange .gte target)) (.rng (mkRange .lt high)))
  else if prefixOp = "~=" then
    if b.minor.isNone || b.patch.isNone then none
    else some (.and2 (.rng (mkRange .gte target)) (.rng (mkRange .lt target.nextMinor)))
  else if prefixOp = "==" then
    if b.major.isNone then some (.rng (mkRange .gte target))
    else if b.minor.isNone then
      some (.and2 (.rng (mkRange .gte target)) (.rng (mkRange .lt target.nextMajor)))
    else if b.patch.isNone then
      some (.and2 (.rng (mkRange .gte target)) (.rng (mkRange .lt target.nextMinor)))
    else if b.build = some [] then some (.rng (mkRange .eq target .natural .strict))
    else some (.rng (mkRange .eq target))
  else if prefixOp = "!=" then
    if b.major.isNone then none
    else if b.minor.isNone then
      some (.or2 (.rng (mkRange .lt target)) (.rng (mkRange .gte target.nextMajor)))
    else if b.patch.isNone then
      some (.or2 (.rng (mkRange .lt target)) (.rng (mkRange .gte target.nextMinor)))
    else if b.prerel = some [] then some (.rng (mkRange .neq target .always))
    else if b.build = some [] then some (.rng (mkRange .neq target .natural .strict))
    else some (.rng (mkRange .neq target))
  else if prefixOp = ">" then
    if b.major.isNone then none
    else if b.minor.isNone then some (.rng (mkRange .gte target.nextMajor))
    else if b.patch.isNone then some (.rng (mkRange .gte target.nextMinor))
    else some (.rng (mkRange .gt target))
  else if prefixOp = ">=" then
    some (.rng (mkRange .gte target))
  else if prefixOp = "<" then
    if b.major.isNone then none else some (.rng (mkRange .lt target))
  else if prefixOp = "<=" then
    if b.major.isNone then none
    else if b.minor.isNone then some (.rng (mkRange .lt target.nextMajor))
    else if b.patch.isNone then some (.rng (mkRange .lt target.nextMinor))
    else some (.rng (mkRange .lte target))
  else none

/-- Fold of `SimpleSpec.Parser.parse`: each comma-separated block must
match `NAIVE_SPEC` and is conjoined onto the clause. -/
def simpleSpecGo : List (List Char) → Clause → Option Clause
  | [], acc => some acc
  | blk :: rest, acc =>
    match naiveSpecMatch blk with
    | none => none
    | some nb =>
      match parse_block nb with
      | none => none
      | some c => simpleSpecGo rest (clauseAnd acc c)

/-- `semantic_version.SimpleSpec(expression)`: parse to a clause;
`none` models the `ValueError` raised on an invalid expression. -/
def simpleSpecClause (expression : String) : Option Clause :=
  simpleSpecGo (splitAll ',' expression.toList) .always

/-- `SimpleSpec(expression).match(version)` once parsed. -/
def specMatch (c : Clause) (v : SemVer) : Bool := clauseMatch c v

/-! ## The module's pure data and logic -/

/-- The `python_deps` manifest (an ordered `dict` in the source). -/
def python_deps : List (String × String) :=
  [("platformio", "https://github.com/pioarduino/platformio-core/archive/refs/tags/v6.1.18.zip"),
   ("pyyaml", ">=6.0.2"),
   ("rich-click", ">=1.8.6"),
   ("zopfli", ">=0.2.2"),
   ("intelhex", ">=2.3.0"),
   ("rich", ">=14.0.0"),
   ("urllib3", "<2"),
   ("cryptography", ">=45.0.3"),
   ("certifi", ">=2025.8.3"),
   ("ecdsa", ">=0.19.1"),
   ("bitstring", ">=4.3.1"),
   ("reedsolo", ">=1.5.3,<1.8"),
   ("esp-idf-size", ">=1.6.1")]

/-- An installed-package dict: lower-cased name to version, in insertion
order (Python `dict`). -/
abbrev InstalledDict := List (String × SemVer)

/-- Python dict lookup `d.get(k)` / `k in d`. -/
def dictGet? (d : InstalledDict) (k : String) : Option SemVer :=
  (d.find? fun p => p.1 = k).map (·.2)

/-- Python dict assignment `d[k] = v` (overwrite in place, append when
new). -/
def dictInsert (d : InstalledDict) (k : String) (v : SemVer) : InstalledDict :=
  if (d.find? fun p => p.1 = k).isSome then
    d.map fun p => if p.1 = k then (k, v) else p
  else d ++ [(k, v)]

/-- `get_packages_to_install(deps, installed_packages)`, materialised as
a list (the caller wraps the generator in `list(...)`).  An uncaught
exception inside the generator — `ValueError` from
`semantic_version.SimpleSpec` on an unparsable spec, or from
`pepver_to_semver` — is modelled as `Except.error`.  For an installed
package named `platformio`, the spec is searched with
`PLATFORMIO_URL_VERSION_RE`; on a hit the extracted token is normalised
with `pepver_to_semver` and compared with `!=` (which, in
`semantic_version`, compares the full tuple including build metadata)
against the installed version; with no hit the entry is skipped.  Any
other installed package goes through `SimpleSpec(spec).match`. -/
def get_packages_to_install (deps : List (String × String))
    (installed : InstalledDict) : Except String (List String) :=
  match deps with
  | [] => .ok []
  | (package, spec) :: rest =>
    let name := toLowerStr package
    match dictGet? installed name with
    | none => (get_packages_to_install rest installed).map (package :: ·)
    | some instVer =>
      if name = "platformio" then
        match urlVersionSearch spec with
        | some tok =>
          match pepver_to_semver tok with
          | .error e => .error e
          | .ok expected =>
            if instVer ≠ expected then
              (get_packages_to_install rest installed).map (package :: ·)
            else get_packages_to_install rest installed
        | none => get_packages_to_install rest installed
      else
        match simpleSpecClause spec with
        | none => .error "ValueError: invalid simple spec"
        | some c =>
          if !specMatch c instVer then
            (get_packages_to_install rest installed).map (package :: ·)
          else get_packages_to_install rest installed

/-- Host-platform flag (`platformio.compat.IS_WINDOWS`). -/
structure Config where
  isWindows : Bool

/-- `get_executable_path(penv_dir, executable_name)`; `pathlib` joins
with the platform separator, rendered here as `/`. -/
def get_executable_path (cfg : Config) (penv_dir executable_name : String) : String :=
  let scripts_dir := if cfg.isWindows then "Scripts" else "bin"
  let exe_suffix := if cfg.isWindows then ".exe" else ""
  penv_dir ++ "/" ++ scripts_dir ++ "/" ++ executable_name ++ exe_suffix

/-- The module-level
`if sys.version_info < (3, 10): sys.stderr.write(...); sys.exit(1)`
guard, lines 18–25, executed at import time before any function is
defined.  `sys.version_info` is a 5-tuple; comparing it with `(3, 10)`
is lexicographic, and when major and minor are equal the longer tuple is
greater, so the guard fires exactly when
`major < 3 ∨ (major = 3 ∧ minor < 10)`.  Returns the exit code `1`
together with the diagnostic stream when the module terminates, `none`
when loading continues. -/
def module_version_guard (major minor _micro : Nat) : Option (String × Nat) :=
  let lt := major < 3 || (major = 3 && minor < 10)
  if lt then some ("Error: Python 3.10 or higher is required.", 1)
  else none

/-- `github_actions = bool(os.getenv("GITHUB_ACTIONS"))`: a nonempty
value of the variable yields `true`. -/
def github_actions (envGithubActions : Option String) : Bool :=
  match envGithubActions with
  | some s => s ≠ ""
  | none => false

/-- `has_internet_connection`: `True` iff the socket connection to the
probe endpoint succeeds; every `OSError` is caught.  The network is
external, so the outcome is the oracle itself. -/
def has_internet_connection (probeSucceeds : Bool) : Bool := probeSucceeds

/-! ## Abstract file system and event traces -/

/-- An abstract file system: which paths exist as regular files and which
as directories. -/
structure FS where
  files : List String
  dirs : List String
deriving DecidableEq, Repr

def FS.isFile (fs : FS) (p : String) : Bool := fs.files.contains p

def FS.isDir (fs : FS) (p : String) : Bool := fs.dirs.contains p

/-- `Path.exists()`: file or directory. -/
def FS.pathExists (fs : FS) (p : String) : Bool := fs.isFile p || fs.isDir p

/-- `p` lies strictly inside directory `root`. -/
def insideDir (root p : String) : Bool := (root ++ "/").toList.isPrefixOf p.toList

/-- `shutil.rmtree(root)`: remove the root and everything under it. -/
def FS.rmtree (fs : FS) (root : String) : FS :=
  { files := fs.files.filter fun p => !(p = root || insideDir root p),
    dirs := fs.dirs.filter fun p => !(p = root || insideDir root p) }

def FS.addFile (fs : FS) (p : String) : FS :=
  if fs.files.contains p then fs else { fs with files := fs.files ++ [p] }

def FS.addDir (fs : FS) (p : String) : FS :=
  if fs.dirs.contains p then fs else { fs with dirs := fs.dirs ++ [p] }

/-- `os.path.dirname` (posix form): everything up to the last separator,
with trailing separators stripped unless the head is all separators. -/
def dirName (p : String) : String :=
  let cs := p.toList
  let revAfter := cs.reverse.dropWhile (· ≠ '/')   -- reversed head incl. final '/'
  match revAfter with
  | [] => ""
  | _ =>
    let head := revAfter.reverse
    if head.all (· = '/') then String.mk head
    else String.mk (revAfter.dropWhile (· = '/')).reverse

/-- Observable actions of the module, in execution order.  `spawnHelper`
is the vocabulary for launching a detached helper process; no function in
this module ever emits it. -/
inductive Event where
  | msg (s : String)                      -- print(...)
  | errMsg (s : String)                   -- sys.stderr.write(...)
  | rmtreeCall (path : String)            -- shutil.rmtree(path)
  | runUvVenv (python target : String)    -- subprocess: uv venv --clear
  | runPyVenv (python target : String)    -- subprocess: python -m venv --clear
  | writeMarker (path : String)           -- marker_file.write_text(...)
  | spawnHelper (args : List String)      -- detached helper process launch
  | runUvVersionProbe                     -- subprocess: <penv uv> --version
  | runInstallUvByUv (externalUv : String)
  | runInstallUvByPip (python : String)
  | runUvPipList                          -- subprocess: uv pip list --format=json
  | runUvPipInstall (args : List String)  -- batched uv pip install --upgrade
  | runEsptoolProbe
  | runEsptoolInstall (dir : String)
  | runCertifiProbe
deriving DecidableEq, Repr

/-- Terminal outcome of a failing run: `sys.exit(code)` or an uncaught
exception. -/
inductive Halt where
  | exited (code : Nat)
  | raised (msg : String)
deriving DecidableEq, Repr

/-- Whether an event is the launch of a detached helper process. -/
def Event.isSpawn : Event → Bool
  | .spawnHelper _ => true
  | _ => false

/-- Whether an event belongs to dependency reconciliation: the uv
presence probe, installing uv, the installed-package listing, or the
batched dependency install. -/
def Event.isDepsEvent : Event → Bool
  | .runUvVersionProbe => true
  | .runInstallUvByUv _ => true
  | .runInstallUvByPip _ => true
  | .runUvPipList => true
  | .runUvPipInstall _ => true
  | _ => false

/-- Oracle for one environment-creation subprocess (`uv venv` or
`python -m venv`): whether the call returned successfully, and whether
the tool actually produced the `python` binary inside the new
environment. -/
structure VenvCall where
  ok : Bool
  createsPython : Bool
deriving DecidableEq, Repr

/-- File-system effect of a successful environment-creation call. -/
def applyVenvEffect (cfg : Config) (fs : FS) (penv_dir : String)
    (createsPython : Bool) : FS :=
  let scripts := penv_dir ++ "/" ++ (if cfg.isWindows then "Scripts" else "bin")
  let fs1 := (fs.addDir penv_dir).addDir scripts
  if createsPython then fs1.addFile (get_executable_path cfg penv_dir "python")
  else fs1

/-! ## The provisioning entry points -/

/-- `ensure_penv_with_uv(platformio_dir)` (SCons path, lines 77–106):
health check on marker file and penv python; when unhealthy, delete the
whole penv in-process (`shutil.rmtree`) if it exists, recreate it with
`uv venv` pointed at `sys.executable`, and on failure of that single
attempt exit the process with code 1 — there is no fallback here.  On
success the marker is written immediately, with no check that the python
binary exists. -/
def ensure_penv_with_uv (cfg : Config) (uv : VenvCall) (fs : FS)
    (platformio_dir sys_executable : String) :
    FS × List Event × Except Halt String :=
  let penv_dir := platformio_dir ++ "/penv"
  let marker_file := penv_dir ++ "/pioarduino_py"
  let penv_python := get_executable_path cfg penv_dir "python"
  if !(fs.isFile marker_file) || !(fs.isFile penv_python) then
    let ev0 := [Event.msg "Marker file missing or penv corrupted, removing and recreating using uv."]
    let fs1 := if fs.pathExists penv_dir then fs.rmtree penv_dir else fs
    let ev1 := if fs.pathExists penv_dir then ev0 ++ [Event.rmtreeCall penv_dir] else ev0
    let ev2 := ev1 ++ [Event.runUvVenv sys_executable penv_dir]
    if uv.ok then
      let fs2 := applyVenvEffect cfg fs1 penv_dir uv.createsPython
      (fs2.addFile marker_file, ev2 ++ [Event.writeMarker marker_file], .ok penv_dir)
    else
      (fs1, ev2 ++ [Event.errMsg "Error: Failed to create penv with uv"],
       .error (.exited 1))
  else (fs, [], .ok penv_dir)

/-- `setup_pipenv_in_package(env, penv_dir)` (lines 108–150): create the
penv via uv (resolved next to `$PYTHONEXE` when present there, else from
`PATH`), fall back to `python -m venv` through `env.Execute` (whose exit
status is ignored), then check that the python binary exists — exiting
with code 1 when it does not — and only then write the marker. -/
def setup_pipenv_in_package (cfg : Config) (uv venvAction : VenvCall) (fs : FS)
    (penv_dir pythonExe : String) :
    FS × List Event × Except Halt (Option String) :=
  if !(fs.isFile (get_executable_path cfg penv_dir "python")) then
    let python_dir := dirName pythonExe
    let uv_exe_suffix := if cfg.isWindows then ".exe" else ""
    let uv_cmd0 := python_dir ++ "/uv" ++ uv_exe_suffix
    let uv_cmd := if fs.isFile uv_cmd0 then uv_cmd0 else "uv"
    let ev1 := [Event.runUvVenv pythonExe penv_dir]
    let uv_success := uv.ok
    let fs1 := if uv.ok then applyVenvEffect cfg fs penv_dir uv.createsPython else fs
    let ev2 := if uv.ok then ev1 ++ [Event.msg "Created Python virtualenv using uv"] else ev1
    let fs2 :=
      if !uv_success then
        (if venvAction.ok then applyVenvEffect cfg fs1 penv_dir venvAction.createsPython
         else fs1)
      else fs1
    let ev3 := if !uv_success then ev2 ++ [Event.runPyVenv pythonExe penv_dir] else ev2
    let penv_python := get_executable_path cfg penv_dir "python"
    if !(fs2.isFile penv_python) then
      (fs2, ev3 ++ [Event.errMsg "Error: Failed to create a proper virtual environment."],
       .error (.exited 1))
    else
      (fs2.addFile (penv_dir ++ "/pioarduino_py"),
       ev3 ++ [Event.writeMarker (penv_dir ++ "/pioarduino_py")],
       .ok (if uv_success then some uv_cmd else none))
  else (fs, [], .ok none)

/-- `_setup_pipenv_minimal(penv_dir)` (lines 152–193): health check;
when unhealthy, delete the penv in-process if it exists, try `uv venv`
(writing the marker immediately on success, before any check of the
python binary), fall back to `python -m venv` (again writing the marker
immediately on success), and exit 1 only when both attempts fail.
Returns `'uv'` when uv succeeded, else `None`. -/
def _setup_pipenv_minimal (cfg : Config) (uv venvFallback : VenvCall) (fs : FS)
    (penv_dir sys_executable : String) :
    FS × List Event × Except Halt (Option String) :=
  let marker_file := penv_dir ++ "/pioarduino_py"
  let penv_python := get_executable_path cfg penv_dir "python"
  if !(fs.isFile marker_file) || !(fs.isFile penv_python) then
    let ev0 := [Event.msg "Marker file missing or penv corrupted, removing and recreating using uv (minimal setup)."]
    let fs1 := if fs.pathExists penv_dir then fs.rmtree penv_dir else fs
    let ev1 := if fs.pathExists penv_dir then ev0 ++ [Event.rmtreeCall penv_dir] else ev0
    let ev2 := ev1 ++ [Event.runUvVenv sys_executable penv_dir]
    if uv.ok then
      let fs2 := (applyVenvEffect cfg fs1 penv_dir uv.createsPython).addFile marker_file
      (fs2,
       ev2 ++ [Event.writeMarker marker_file,
               Event.msg "Created Python virtual environment using uv (minimal)"],
       .ok (some "uv"))
    else
      let ev3 := ev2 ++ [Event.msg "Error: Failed to create penv with uv (minimal)",
                         Event.msg "Trying fallback to python -m venv...",
                         Event.runPyVenv sys_executable penv_dir]
      if venvFallback.ok then
        let fs2 := (applyVenvEffect cfg fs1 penv_dir venvFallback.createsPython).addFile marker_file
        (fs2,
         ev3 ++ [Event.writeMarker marker_file,
                 Event.msg "Created Python virtual environment using python -m venv (minimal)"],
         .ok none)
      else
        (fs1, ev3 ++ [Event.errMsg "Error: Failed to create minimal virtual environment"],
         .error (.exited 1))
  else (fs, [], .ok none)

/-! ## Dependency reconciliation -/

/-- One element of the JSON array produced by
`uv pip list --format=json`; a `none` field models a missing key
(`KeyError` on access). -/
structure JEntry where
  name : Option String
  version : Option String
deriving DecidableEq, Repr

/-- Oracle for the `uv pip list` subprocess: the call raised, or it ran
with a return code and stdout whose stripped text is empty or parses
(`parsed = none` models `json.loads` raising on malformed output). -/
inductive ListOutcome where
  | raisedCall
  | ran (returncode : Nat) (stdoutEmpty : Bool) (parsed : Option (List JEntry))
deriving DecidableEq, Repr

/-- The `for p in packages:` loop of `_get_installed_uv_packages`: each
entry's name is lower-cased and its version pushed through
`pepver_to_semver`; a `KeyError` or `ValueError` aborts the loop (it is
caught by the surrounding `except`), leaving the entries accumulated so
far in `result`.  Returns the dict and whether an exception occurred. -/
def listLoop : List JEntry → InstalledDict → InstalledDict × Bool
  | [], acc => (acc, false)
  | e :: rest, acc =>
    match e.name with
    | none => (acc, true)
    | some n =>
      match e.version with
      | none => (acc, true)
      | some v =>
        match pepver_to_semver v with
        | .error _ => (acc, true)
        | .ok sv => listLoop rest (dictInsert acc (toLowerStr n) sv)

/-- `_get_installed_uv_packages()` (nested in `install_python_deps`,
lines 281–295): run the listing, and on a zero return code with
nonempty stdout parse it and fill the dict; every exception is caught
and reported, the accumulated `result` being returned regardless. -/
def _get_installed_uv_packages (o : ListOutcome) : List Event × InstalledDict :=
  let ev := [Event.runUvPipList]
  match o with
  | .raisedCall => (ev ++ [Event.msg "Could not extract Python package list"], [])
  | .ran rc stdoutEmpty parsed =>
    if rc = 0 && !stdoutEmpty then
      match parsed with
      | none => (ev ++ [Event.msg "Could not extract Python package list"], [])
      | some entries =>
        let (d, raisedInLoop) := listLoop entries []
        (ev ++ (if raisedInLoop then [Event.msg "Could not extract Python package list"] else []), d)
    else (ev, [])

/-- Oracle bundle for `install_python_deps`'s subprocess calls. -/
structure DepsOracle where
  uvProbeOk : Bool      -- `<penv>/uv --version` ran with return code 0
  installUvOk : Bool    -- installing uv into the penv succeeded
  listing : ListOutcome
  batchOk : Bool        -- the batched `uv pip install` succeeded
deriving DecidableEq, Repr

/-- Tail of `install_python_deps` after uv is ensured: list installed
packages, compute the delta with `get_packages_to_install` over the
global `python_deps`, and when nonempty issue one batched
`uv pip install --upgrade` whose failure yields `False`. -/
def installDepsRest (o : DepsOracle) (ev : List Event) : List Event × Except Halt Bool :=
  let (evL, installed) := _get_installed_uv_packages o.listing
  let ev1 := ev ++ evL
  match get_packages_to_install python_deps installed with
  | .error e => (ev1, .error (.raised e))
  | .ok pkgs =>
    if !pkgs.isEmpty then
      let packages_list := pkgs.map fun p =>
        -- `python_deps[p]`: p is always a key of python_deps here
        let spec := ((python_deps.find? fun q => q.1 = p).map (·.2)).getD ""
        if strStartsWith spec "http://" || strStartsWith spec "https://" ||
            strStartsWith spec "git+" || strStartsWith spec "file://" then spec
        else p ++ spec
      let ev2 := ev1 ++ [Event.runUvPipInstall packages_list]
      if o.batchOk then (ev2, .ok true)
      else (ev2 ++ [Event.msg "Error installing Python dependencies"], .ok false)
    else (ev1, .ok true)

/-- `install_python_deps(python_exe, external_uv_executable)` (lines
238–318): probe uv inside the penv; when absent, install it via the
external uv executable or via `python -m pip`, returning `False` on
failure; then reconcile the dependency set. -/
def install_python_deps (o : DepsOracle) (python_exe : String)
    (external_uv_executable : Option String) : List Event × Except Halt Bool :=
  -- penv_dir := dirname(dirname(python_exe)); penv_uv_executable is a pure
  -- path computation used by the recorded subprocess calls
  let ev0 := [Event.runUvVersionProbe]
  if !o.uvProbeOk then
    match external_uv_executable with
    | some ext =>
      let ev1 := ev0 ++ [Event.runInstallUvByUv ext]
      if !o.installUvOk then
        (ev1 ++ [Event.msg "Error installing uv package manager into penv"], .ok false)
      else installDepsRest o ev1
    | none =>
      let ev1 := ev0 ++ [Event.runInstallUvByPip python_exe]
      if !o.installUvOk then
        (ev1 ++ [Event.msg "Error installing uv package manager via pip"], .ok false)
      else installDepsRest o ev1
  else installDepsRest o ev0

/-! ## Auxiliary tool installer -/

/-- Oracle for the esptool location probe
(`subprocess.run([python, "-c", ...], check=True, timeout=5)`): the
printed stdout on success, or any raised exception. -/
inductive ProbeOutcome where
  | output (stdout : String)
  | raisedProbe
deriving DecidableEq, Repr

/-- `install_esptool(env, platform, python_exe, uv_executable)` (SCons
variant, lines 320–353): a missing or non-directory package path is
fatal — stderr diagnostic and `sys.exit(1)`; otherwise probe whether the
importable esptool already resolves underneath the package directory and
return if so; otherwise force an editable reinstall, exiting 1 on
failure. -/
def install_esptool (fs : FS) (package_dir : Option String)
    (probe : ProbeOutcome) (installOk : Bool) : List Event × Except Halt Unit :=
  let esptool_repo_path := package_dir.getD ""
  if esptool_repo_path = "" || !(fs.isDir esptool_repo_path) then
    ([Event.errMsg "Error: tool-esptoolpy package directory not found"],
     .error (.exited 1))
  else
    let ev0 := [Event.runEsptoolProbe]
    let matched := match probe with
                   | .output s => trimStr s == "MATCH"
                   | .raisedProbe => false
    if matched then (ev0, .ok ())
    else
      let ev1 := ev0 ++ [Event.runEsptoolInstall esptool_repo_path]
      if installOk then (ev1, .ok ())
      else (ev1 ++ [Event.errMsg "Error: Failed to install esptool"],
            .error (.exited 1))

/-- `_install_esptool_from_tl_install(platform, python_exe,
uv_executable)` (minimal variant, lines 406–436): a missing or
non-directory package path returns silently; probe as above; a failing
editable install only prints a warning — never raises, never exits. -/
def _install_esptool_from_tl_install (fs : FS) (package_dir : Option String)
    (probe : ProbeOutcome) (installOk : Bool) : List Event × Except Halt Unit :=
  let esptool_repo_path := package_dir.getD ""
  if esptool_repo_path = "" || !(fs.isDir esptool_repo_path) then
    ([], .ok ())
  else
    let ev0 := [Event.runEsptoolProbe]
    let matched := match probe with
                   | .output s => trimStr s == "MATCH"
                   | .raisedProbe => false
    if matched then (ev0, .ok ())
    else
      let ev1 := ev0 ++ [Event.runEsptoolInstall esptool_repo_path]
      if installOk then (ev1 ++ [Event.msg "Installed esptool from tl-install path"], .ok ())
      else (ev1 ++ [Event.msg "Warning: Failed to install esptool"], .ok ())

/-! ## Certificate wiring and the shared core -/

/-- Oracle for the certifi path probe. -/
structure CertifiOracle where
  ok : Bool
  certPath : String
deriving DecidableEq, Repr

/-- `_setup_certifi_env(env, python_exe)` (lines 438–468): probe
certifi's bundle path inside the penv; on failure print and return; on
success point the five CA-bundle environment variables at it.  The
variable assignments are returned explicitly. -/
def _setup_certifi_env (o : CertifiOracle) : List Event × List (String × String) :=
  if o.ok then
    ([Event.runCertifiProbe],
     [("CERTIFI_PATH", o.certPath), ("SSL_CERT_FILE", o.certPath),
      ("REQUESTS_CA_BUNDLE", o.certPath), ("CURL_CA_BUNDLE", o.certPath),
      ("GIT_SSL_CAINFO", o.certPath)])
  else
    ([Event.runCertifiProbe,
      Event.msg "Error: Failed to obtain certifi path from the virtual environment"], [])

/-- Oracle bundle for `_setup_python_environment_core`. -/
structure CoreOracle where
  uv : VenvCall
  venvFallback : VenvCall
  online : Bool                        -- has_internet_connection() probe
  envGithubActions : Option String     -- os.getenv("GITHUB_ACTIONS") at import
  deps : DepsOracle
  esptoolDir : Option String           -- platform.get_package_dir("tool-esptoolpy")
  esptoolProbe : ProbeOutcome
  esptoolInstallOk : Bool
  certifi : CertifiOracle
deriving Repr

/-- Line 382 of `_setup_python_environment_core`: the penv phase.
`sconsMode` is `env is not None`.  In minimal mode the value
`_setup_pipenv_minimal` returns (`'uv'` or `None`) is used as
`penv_dir`, exactly as the source does: `None` makes
`get_executable_path` raise `TypeError`, and the string `'uv'` makes
the subsequent python-executable check fail. -/
def corePhase1 (cfg : Config) (sconsMode : Bool) (o : CoreOracle) (fs : FS)
    (platformio_dir sys_executable : String) :
    FS × List Event × Except Halt String :=
  if sconsMode then
    ensure_penv_with_uv cfg o.uv fs platformio_dir sys_executable
  else
    match _setup_pipenv_minimal cfg o.uv o.venvFallback fs
        (platformio_dir ++ "/penv") sys_executable with
    | (fs1, ev1, .error h) => (fs1, ev1, .error h)
    | (fs1, ev1, .ok (some s)) => (fs1, ev1, .ok s)
    | (fs1, ev1, .ok none) =>
      (fs1, ev1, .error (.raised "TypeError: argument should be a str or an os.PathLike object"))

/-- `_setup_python_environment_core(env, platform, platformio_dir,
should_install_esptool)` (lines 369–404): the penv phase, the
python-executable check (exit 1 on failure), the connectivity gate of
lines 392–397 — dependency reconciliation runs when the probe is
positive or the `GITHUB_ACTIONS` override is set, and is otherwise
skipped entirely with a warning — then the optional esptool installer
(SCons or minimal variant) and the certifi wiring. -/
def _setup_python_environment_core (cfg : Config) (sconsMode : Bool)
    (o : CoreOracle) (fs : FS) (platformio_dir sys_executable : String)
    (should_install_esptool : Bool) :
    FS × List Event × Except Halt (String × String) :=
  match corePhase1 cfg sconsMode o fs platformio_dir sys_executable with
  | (fs1, ev1, .error h) => (fs1, ev1, .error h)
  | (fs1, ev1, .ok penv_dir) =>
    -- SCons mode: env.Replace(PYTHONEXE=penv_python) mutates only the
    -- external SCons environment
    let penv_python := get_executable_path cfg penv_dir "python"
    if !(fs1.isFile penv_python) then
      (fs1, ev1 ++ [Event.errMsg "Error: Python executable not found"],
       .error (.exited 1))
    else
      -- setup_python_paths only extends sys.path in-process
      let esptool_binary_path := get_executable_path cfg penv_dir "esptool"
      let uv_executable := get_executable_path cfg penv_dir "uv"
      let gate : List Event × Except Halt Unit :=
        if has_internet_connection o.online || github_actions o.envGithubActions then
          match install_python_deps o.deps penv_python (some uv_executable) with
          | (evD, .error h) => (evD, .error h)
          | (evD, .ok true) => (evD, .ok ())
          | (evD, .ok false) =>
            (evD ++ [Event.errMsg "Error: Failed to install Python dependencies into penv"],
             .error (.exited 1))
        else
          ([Event.msg "Warning: No internet connection detected, Python dependency check will be skipped."],
           .ok ())
      match gate with
      | (evG, .error h) => (fs1, ev1 ++ evG, .error h)
      | (evG, .ok ()) =>
        let ev2 := ev1 ++ evG
        let esptoolStep : List Event × Except Halt Unit :=
          if should_install_esptool then
            if sconsMode then
              install_esptool fs1 o.esptoolDir o.esptoolProbe o.esptoolInstallOk
            else
              _install_esptool_from_tl_install fs1 o.esptoolDir o.esptoolProbe o.esptoolInstallOk
          else ([], .ok ())
        match esptoolStep with
        | (evE, .error h) => (fs1, ev2 ++ evE, .error h)
        | (evE, .ok ()) =>
          let (evC, _envAssignments) := _setup_certifi_env o.certifi
          (fs1, ev2 ++ evE ++ evC, .ok (penv_python, esptool_binary_path))

/-- `setup_penv_minimal(platform, platformio_dir, install_esptool=True)`
(lines 355–367). -/
def setup_penv_minimal (cfg : Config) (o : CoreOracle) (fs : FS)
    (platformio_dir sys_executable : String) (installEsptoolFlag : Bool) :
    FS × List Event × Except Halt (String × String) :=
  _setup_python_environment_core cfg false o fs platformio_dir sys_executable installEsptoolFlag

/-- `setup_python_environment(env, platform, platformio_dir)` (lines
470–482). -/
def setup_python_environment (cfg : Config) (o : CoreOracle) (fs : FS)
    (platformio_dir sys_executable : String) :
    FS × List Event × Except Halt (String × String) :=
  _setup_python_environment_core cfg true o fs platformio_dir sys_executable true

/-! ## Concrete fixtures used by the theorems -/

/-- A file system in which the penv root `/pio/penv` exists and holds the
interpreter the current process is running from, but the health marker is
missing — the self-replace trigger situation. -/
def fsInsideRoot : FS :=
  { files := ["/pio/penv/bin/python"],
    dirs := ["/pio", "/pio/penv", "/pio/penv/bin"] }

/-- The `uv pip list --format=json` output after a successful
reconciliation of `python_deps`: every manifest package present, each at
a version satisfying its requirement (platformio at the `v6.1.18` the
manifest URL pins). -/
def postInstallListing : List JEntry :=
  [⟨some "platformio", some "6.1.18"⟩,
   ⟨some "pyyaml", some "6.0.2"⟩,
   ⟨some "rich-click", some "1.8.6"⟩,
   ⟨some "zopfli", some "0.2.2"⟩,
   ⟨some "intelhex", some "2.3.0"⟩,
   ⟨some "rich", some "14.0.0"⟩,
   ⟨some "urllib3", some "1.26.20"⟩,
   ⟨some "cryptography", some "45.0.3"⟩,
   ⟨some "certifi", some "2025.8.3"⟩,
   ⟨some "ecdsa", some "0.19.1"⟩,
   ⟨some "bitstring", some "4.3.1"⟩,
   ⟨some "reedsolo", some "1.7.0"⟩,
   ⟨some "esp-idf-size", some "1.6.1"⟩]

/-- A file system in which the penv at `/pio/penv` is healthy: marker
and interpreter both present. -/
def fsHealthy : FS :=
  { files := ["/pio/penv/pioarduino_py", "/pio/penv/bin/python"],
    dirs := ["/pio", "/pio/penv", "/pio/penv/bin"] }

/-- A core oracle describing an offline run with no `GITHUB_ACTIONS`
override and a working certifi probe. -/
def offlineOracle : CoreOracle :=
  { uv := ⟨true, true⟩, venvFallback := ⟨true, true⟩, online := false,
    envGithubActions := none,
    deps := ⟨true, true, .raisedCall, true⟩,
    esptoolDir := none, esptoolProbe := .raisedProbe, esptoolInstallOk := true,
    certifi := ⟨true, "/pio/penv/cert.pem"⟩ }

/-- Successful processing of one listing entry: both keys present and
the version normalises; yields the dict key/value the loop would add. -/
def entryParse (e : JEntry) : Option (String × SemVer) :=
  match e.name, e.version with
  | some n, some v =>
    match pepver_to_semver v with
    | .ok sv => some (toLowerStr n, sv)
    | .error _ => none
  | _, _ => none

/-- The dict accumulated over a run of entries that all parse. -/
def entryFold (acc : InstalledDict) (entries : List JEntry) : InstalledDict :=
  entries.foldl (fun d e =>
    match entryParse e with
    | some q => dictInsert d q.1 q.2
    | none => d) acc

end PenvSetup

namespace PenvSetup

/-! ## Helper lemmas (shared, not claim-specific) -/

/-- Events a provisioning-phase trace may contain: nothing from
dependency reconciliation, no helper-process spawn, and not the
dependency-failure diagnostic. -/
def benignEvent (e : Event) : Prop :=
  e.isDepsEvent = false ∧ e.isSpawn = false ∧
    e ≠ Event.errMsg "Error: Failed to install Python dependencies into penv"

theorem benign_msg (s : String) : benignEvent (Event.msg s) :=
  ⟨rfl, rfl, by simp⟩

theorem benign_errMsg (s : String)
    (h : s ≠ "Error: Failed to install Python dependencies into penv") :
    benignEvent (Event.errMsg s) :=
  ⟨rfl, rfl, by simpa using h⟩

theorem benign_rmtree (p : String) : benignEvent (Event.rmtreeCall p) :=
  ⟨rfl, rfl, by simp⟩

theorem benign_runUvVenv (a b : String) : benignEvent (Event.runUvVenv a b) :=
  ⟨rfl, rfl, by simp⟩

theorem benign_runPyVenv (a b : String) : benignEvent (Event.runPyVenv a b) :=
  ⟨rfl, rfl, by simp⟩

theorem benign_writeMarker (p : String) : benignEvent (Event.writeMarker p) :=
  ⟨rfl, rfl, by simp⟩

theorem benign_probe : benignEvent Event.runEsptoolProbe :=
  ⟨rfl, rfl, by simp⟩

theorem benign_esptoolInstall (d : String) : benignEvent (Event.runEsptoolInstall d) :=
  ⟨rfl, rfl, by simp⟩

theorem benign_certifi : benignEvent Event.runCertifiProbe :=
  ⟨rfl, rfl, by simp⟩

/-- Every event `ensure_penv_with_uv` can emit is benign. -/
theorem ensure_trace_benign (cfg : Config) (uv : VenvCall) (fs : FS)
    (pd sys : String) :
    ∀ e ∈ (ensure_penv_with_uv cfg uv fs pd sys).2.1, benignEvent e := by
  intro e he
  unfold ensure_penv_with_uv at he
  dsimp at he
  repeat' split at he
  all_goals fin_cases he
  all_goals
    first
      | exact benign_msg _
      | exact benign_rmtree _
      | exact benign_runUvVenv _ _
      | exact benign_runPyVenv _ _
      | exact benign_writeMarker _
      | exact benign_errMsg _ (by simp)

/-- Every event `_setup_pipenv_minimal` can emit is benign. -/
theorem minimal_trace_benign (cfg : Config) (uv venv : VenvCall) (fs : FS)
    (pd sys : String) :
    ∀ e ∈ (_setup_pipenv_minimal cfg uv venv fs pd sys).2.1, benignEvent e := by
  intro e he
  unfold _setup_pipenv_minimal at he
  dsimp at he
  repeat' split at he
  all_goals fin_cases he
  all_goals
    first
      | exact benign_msg _
      | exact benign_rmtree _
      | exact benign_runUvVenv _ _
      | exact benign_runPyVenv _ _
      | exact benign_writeMarker _
      | exact benign_errMsg _ (by simp)

/-- Every event the SCons esptool installer can emit is benign. -/
theorem install_esptool_trace_benign (fs : FS) (pkgdir : Option String)
    (probe : ProbeOutcome) (ok : Bool) :
    ∀ e ∈ (install_esptool fs pkgdir probe ok).1, benignEvent e := by
  intro e he
  unfold install_esptool at he
  dsimp at he
  repeat' split at he
  all_goals fin_cases he
  all_goals
    first
      | exact benign_errMsg _ (by simp)
      | exact benign_probe
      | exact benign_esptoolInstall _

/-- Every event the minimal esptool installer can emit is benign. -/
theorem tl_install_trace_benign (fs : FS) (pkgdir : Option String)
    (probe : ProbeOutcome) (ok : Bool) :
    ∀ e ∈ (_install_esptool_from_tl_install fs pkgdir probe ok).1, benignEvent e := by
  intro e he
  unfold _install_esptool_from_tl_install at he
  dsimp at he
  repeat' split at he
  all_goals fin_cases he
  all_goals
    first
      | exact benign_msg _
      | exact benign_probe
      | exact benign_esptoolInstall _

/-- Every event the certifi wiring can emit is benign. -/
theorem certifi_trace_benign (o : CertifiOracle) :
    ∀ e ∈ (_setup_certifi_env o).1, benignEvent e := by
  intro e he
  unfold _setup_certifi_env at he
  repeat' split at he
  all_goals fin_cases he
  all_goals
    first
      | exact benign_msg _
      | exact benign_certifi

/-- Every event the penv phase of the core can emit is benign. -/
theorem corePhase1_trace_benign (cfg : Config) (sm : Bool) (o : CoreOracle)
    (fs : FS) (pd sys : String) :
    ∀ e ∈ (corePhase1 cfg sm o fs pd sys).2.1, benignEvent e := by
  intro e he
  unfold corePhase1 at he
  split at he
  · exact ensure_trace_benign _ _ _ _ _ e he
  · rcases hmin : _setup_pipenv_minimal cfg o.uv o.venvFallback fs (pd ++ "/penv") sys
      with ⟨fs1, ev1, res⟩
    rw [hmin] at he
    have hb := minimal_trace_benign cfg o.uv o.venvFallback fs (pd ++ "/penv") sys e
    rw [hmin] at hb
    cases res with
    | error h => exact hb he
    | ok s =>
      cases s with
      | some s => exact hb he
      | none => exact hb he

/-- The trace of `installDepsRest` extends the trace it is given. -/
theorem installDepsRest_mem (o : DepsOracle) (ev : List Event) :
    ∀ e ∈ ev, e ∈ (installDepsRest o ev).1 := by
  intro e he
  unfold installDepsRest
  repeat' split
  all_goals simp [List.mem_append, he]

/-- `install_python_deps` always records the uv presence probe: the
online reconciliation path begins with it. -/
theorem install_python_deps_probe_mem (o : DepsOracle) (py : String)
    (ext : Option String) :
    Event.runUvVersionProbe ∈ (install_python_deps o py ext).1 := by
  unfold install_python_deps
  repeat' split
  all_goals
    first
      | exact installDepsRest_mem o _ _ (List.mem_cons_self _ _)
      | simp

/-! ## Theorems for the claims -/

/-- C10: at import time, before any function of the module is defined or
any entry point can run, the version guard terminates the process with
exit code 1 and a stderr diagnostic exactly when the host interpreter
version is below 3.10 (`sys.version_info < (3, 10)` is lexicographic and
ignores the micro component once major.minor ≥ 3.10); otherwise loading
continues. -/
theorem C10_module_guard_exact (major minor micro : Nat) :
    module_version_guard major minor micro
      = if major < 3 ∨ (major = 3 ∧ minor < 10) then
          some ("Error: Python 3.10 or higher is required.", 1)
        else none := by
  unfold module_version_guard
  by_cases h1 : major < 3 <;> by_cases h2 : major = 3 <;> by_cases h3 : minor < 10 <;>
    simp [h1, h2, h3]

/-- C6 (code bug): the URL version-extraction pipeline at the claim's
three example inputs.  For `/v1.2.3.zip` the greedy `(?:[.-]\w+)?` group
swallows `.zip`, so the extracted token is `1.2.3.zip`, which
`pepver_to_semver` normalises to `1.2.3+zip` — not equal (build metadata
included, as `semantic_version.Version` equality does) to the
normalisation `1.2.3` the claim requires.  The other two examples behave
as claimed: `/1.2.3-rc1.tar.gz` extracts `1.2.3-rc1`, and a URL with no
trailing version token yields no extraction. -/
theorem C6_url_extraction_examples :
    urlVersionSearch "/v1.2.3.zip" = some "1.2.3.zip" ∧
    pepver_to_semver "1.2.3.zip" = .ok ⟨1, 2, 3, [], [['z', 'i', 'p']]⟩ ∧
    pepver_to_semver "1.2.3" = .ok ⟨1, 2, 3, [], []⟩ ∧
    (⟨1, 2, 3, [], [['z', 'i', 'p']]⟩ : SemVer) ≠ (⟨1, 2, 3, [], []⟩ : SemVer) ∧
    urlVersionSearch "https://example.org/pkg/1.2.3-rc1.tar.gz" = some "1.2.3-rc1" ∧
    pepver_to_semver "1.2.3-rc1" = .ok ⟨1, 2, 3, [['r', 'c', '1']], []⟩ ∧
    urlVersionSearch "https://example.org/pkg/master.zip" = none :=
  ⟨rfl, rfl, rfl, by decide, rfl, rfl, rfl⟩

/-- C4 (amended): the minimal-mode auxiliary-tool installer
`_install_esptool_from_tl_install` is a silent no-op — empty trace, no
exception, no process exit — whenever the supplied package directory is
absent or not a directory; the SCons-mode `install_esptool` instead
terminates the process (see the counterexample). -/
theorem C4_tl_install_silent_noop (fs : FS) (package_dir : Option String)
    (probe : ProbeOutcome) (installOk : Bool)
    (h : package_dir.getD "" = "" ∨ fs.isDir (package_dir.getD "") = false) :
    _install_esptool_from_tl_install fs package_dir probe installOk = ([], .ok ()) := by
  unfold _install_esptool_from_tl_install
  rcases h with h | h
  · simp [h]
  · by_cases h0 : package_dir.getD "" = ""
    · simp [h0]
    · simp [h0, h]

/-- Witness for C4: the hypothesis holds and the conclusion follows at a
concrete input (`platform.get_package_dir` returned `None`). -/
theorem C4_witness :
    ((none : Option String).getD "" = "" ∨
      FS.isDir ⟨[], []⟩ ((none : Option String).getD "") = false) ∧
    _install_esptool_from_tl_install ⟨[], []⟩ none .raisedProbe true = ([], .ok ()) :=
  ⟨Or.inl rfl, C4_tl_install_silent_noop ⟨[], []⟩ none .raisedProbe true (Or.inl rfl)⟩


/-- C1 (amended): when the health check fails, the provisioning entry
points `ensure_penv_with_uv` and `_setup_pipenv_minimal` recursively
delete the existing root in the current process and never spawn any
helper process — including when the running interpreter resolves inside
the root, since neither function ever consults the interpreter's
location. -/
theorem C1_inprocess_delete_never_spawns (cfg : Config) (uv venv : VenvCall)
    (fs : FS) (platformio_dir penv_dir sys_executable : String)
    (hE : fs.isFile ((platformio_dir ++ "/penv") ++ "/pioarduino_py") = false ∨
          fs.isFile (get_executable_path cfg (platformio_dir ++ "/penv") "python") = false)
    (hEx : fs.pathExists (platformio_dir ++ "/penv") = true)
    (hM : fs.isFile (penv_dir ++ "/pioarduino_py") = false ∨
          fs.isFile (get_executable_path cfg penv_dir "python") = false)
    (hMx : fs.pathExists penv_dir = true) :
    ((ensure_penv_with_uv cfg uv fs platformio_dir sys_executable).2.1.all
        (fun e => !e.isSpawn) = true ∧
      Event.rmtreeCall (platformio_dir ++ "/penv")
        ∈ (ensure_penv_with_uv cfg uv fs platformio_dir sys_executable).2.1) ∧
    ((_setup_pipenv_minimal cfg uv venv fs penv_dir sys_executable).2.1.all
        (fun e => !e.isSpawn) = true ∧
      Event.rmtreeCall penv_dir
        ∈ (_setup_pipenv_minimal cfg uv venv fs penv_dir sys_executable).2.1) := by
  have hcondE : (!(fs.isFile ((platformio_dir ++ "/penv") ++ "/pioarduino_py"))
      || !(fs.isFile (get_executable_path cfg (platformio_dir ++ "/penv") "python"))) = true := by
    rcases hE with h | h <;> simp [h]
  have hcondM : (!(fs.isFile (penv_dir ++ "/pioarduino_py"))
      || !(fs.isFile (get_executable_path cfg penv_dir "python"))) = true := by
    rcases hM with h | h <;> simp [h]
  refine ⟨⟨?_, ?_⟩, ⟨?_, ?_⟩⟩
  · exact List.all_eq_true.mpr fun e he => by
      have hb := (ensure_trace_benign cfg uv fs platformio_dir sys_executable e he).2.1
      simp [hb]
  · unfold ensure_penv_with_uv
    dsimp only
    simp only [hcondE, if_true, hEx]
    rcases uv with ⟨uok, ucp⟩
    cases uok <;> simp
  · exact List.all_eq_true.mpr fun e he => by
      have hb := (minimal_trace_benign cfg uv venv fs penv_dir sys_executable e he).2.1
      simp [hb]
  · unfold _setup_pipenv_minimal
    dsimp only
    simp only [hcondM, if_true, hMx]
    rcases uv with ⟨uok, ucp⟩
    cases uok <;> rcases venv with ⟨vok, vcp⟩ <;> cases vok <;> simp

/-- Witness for C1 (amended): the hypotheses hold and the in-process
deletes occur on the concrete trigger state, where the running
interpreter `/pio/penv/bin/python` lies inside the root. -/
theorem C1_witness :
    FS.isFile fsInsideRoot (("/pio" ++ "/penv") ++ "/pioarduino_py") = false ∧
    FS.pathExists fsInsideRoot ("/pio" ++ "/penv") = true ∧
    Event.rmtreeCall ("/pio" ++ "/penv")
      ∈ (ensure_penv_with_uv ⟨false⟩ ⟨true, true⟩ fsInsideRoot "/pio"
          "/pio/penv/bin/python").2.1 ∧
    Event.rmtreeCall "/pio/penv"
      ∈ (_setup_pipenv_minimal ⟨false⟩ ⟨true, true⟩ ⟨true, true⟩ fsInsideRoot
          "/pio/penv" "/pio/penv/bin/python").2.1 := by
  have h := C1_inprocess_delete_never_spawns ⟨false⟩ ⟨true, true⟩ ⟨true, true⟩
    fsInsideRoot "/pio" "/pio/penv" "/pio/penv/bin/python"
    (Or.inl rfl) rfl (Or.inl rfl) rfl
  exact ⟨rfl, rfl, h.1.2, h.2.2⟩

/-- C1 counterexample.  In the trigger situation — health check fails
(marker missing) while the running interpreter
`/pio/penv/bin/python` resolves inside the root `/pio/penv` —
`ensure_penv_with_uv` performs the recursive delete of the root
in-process and never spawns any helper process, contradicting the claim
that the entry points "never perform a recursive delete of the root
in-process; they first spawn a helper process". -/
theorem C1_counterexample :
    insideDir "/pio/penv" "/pio/penv/bin/python" = true ∧
    (ensure_penv_with_uv ⟨false⟩ ⟨true, true⟩ fsInsideRoot "/pio"
        "/pio/penv/bin/python").2.1.contains (Event.rmtreeCall "/pio/penv") = true ∧
    (ensure_penv_with_uv ⟨false⟩ ⟨true, true⟩ fsInsideRoot "/pio"
        "/pio/penv/bin/python").2.1.all (fun e => !e.isSpawn) = true :=
  ⟨rfl, rfl, rfl⟩

/-- `ensure_penv_with_uv` never invokes `python -m venv` in any run. -/
theorem ensure_no_pyvenv (cfg : Config) (uv : VenvCall) (fs : FS) (pd sys : String) :
    ∀ a b, Event.runPyVenv a b ∉ (ensure_penv_with_uv cfg uv fs pd sys).2.1 := by
  intro a b he
  unfold ensure_penv_with_uv at he
  dsimp at he
  repeat' split at he
  all_goals simp at he

/-- C2 (amended): in `_setup_pipenv_minimal` and
`setup_pipenv_in_package` a failure of the uv creation call falls back
to `python -m venv` with the same base interpreter, and the minimal
variant exits fatally (code 1) exactly when the fallback also fails; but
in `ensure_penv_with_uv` a uv failure is immediately fatal — exit code 1
with no fallback invocation at all. -/
theorem C2_fallback_paths (cfg : Config) (uvM venvM uvP venvP uvE : VenvCall)
    (fsM fsP fsE : FS) (penv_dirM sysM penv_dirP pyP pdE sysE : String)
    (hM : fsM.isFile (penv_dirM ++ "/pioarduino_py") = false ∨
          fsM.isFile (get_executable_path cfg penv_dirM "python") = false)
    (hMuv : uvM.ok = false)
    (hP : fsP.isFile (get_executable_path cfg penv_dirP "python") = false)
    (hPuv : uvP.ok = false)
    (hE : fsE.isFile ((pdE ++ "/penv") ++ "/pioarduino_py") = false ∨
          fsE.isFile (get_executable_path cfg (pdE ++ "/penv") "python") = false)
    (hEuv : uvE.ok = false) :
    Event.runPyVenv sysM penv_dirM
        ∈ (_setup_pipenv_minimal cfg uvM venvM fsM penv_dirM sysM).2.1 ∧
    ((_setup_pipenv_minimal cfg uvM venvM fsM penv_dirM sysM).2.2
        = .error (.exited 1) ↔ venvM.ok = false) ∧
    Event.runPyVenv pyP penv_dirP
        ∈ (setup_pipenv_in_package cfg uvP venvP fsP penv_dirP pyP).2.1 ∧
    (ensure_penv_with_uv cfg uvE fsE pdE sysE).2.2 = .error (.exited 1) ∧
    (∀ a b, Event.runPyVenv a b ∉ (ensure_penv_with_uv cfg uvE fsE pdE sysE).2.1) := by
  have hcondM : (!(fsM.isFile (penv_dirM ++ "/pioarduino_py"))
      || !(fsM.isFile (get_executable_path cfg penv_dirM "python"))) = true := by
    rcases hM with h | h <;> simp [h]
  have hcondE : (!(fsE.isFile ((pdE ++ "/penv") ++ "/pioarduino_py"))
      || !(fsE.isFile (get_executable_path cfg (pdE ++ "/penv") "python"))) = true := by
    rcases hE with h | h <;> simp [h]
  refine ⟨?_, ?_, ?_, ?_, ensure_no_pyvenv cfg uvE fsE pdE sysE⟩
  · unfold _setup_pipenv_minimal
    dsimp only
    simp [hcondM, hMuv]
    try (split <;> simp)
  · unfold _setup_pipenv_minimal
    dsimp only
    simp [hcondM, hMuv]
    rcases venvM with ⟨vok, vcp⟩
    cases vok <;> simp
  · unfold setup_pipenv_in_package
    dsimp only
    simp [hP, hPuv]
    repeat' split
    all_goals simp
  · unfold ensure_penv_with_uv
    dsimp only
    simp [hcondE, hEuv]

/-- Witness for C2 (amended) at concrete inputs: uv fails on an empty
file system; the minimal variant emits the fallback `python -m venv`
call, and `ensure_penv_with_uv` exits 1 without any fallback. -/
theorem C2_witness :
    FS.isFile ⟨[], []⟩ ("/pio/penv" ++ "/pioarduino_py") = false ∧
    Event.runPyVenv "/usr/bin/python3" "/pio/penv"
      ∈ (_setup_pipenv_minimal ⟨false⟩ ⟨false, false⟩ ⟨true, true⟩ ⟨[], []⟩
          "/pio/penv" "/usr/bin/python3").2.1 ∧
    (ensure_penv_with_uv ⟨false⟩ ⟨false, false⟩ ⟨[], []⟩ "/pio"
        "/usr/bin/python3").2.2 = .error (.exited 1) := by
  have h := C2_fallback_paths ⟨false⟩ ⟨false, false⟩ ⟨true, true⟩ ⟨false, false⟩
    ⟨true, true⟩ ⟨false, false⟩ ⟨[], []⟩ ⟨[], []⟩ ⟨[], []⟩
    "/pio/penv" "/usr/bin/python3" "/pio/penv" "/usr/bin/python3" "/pio" "/usr/bin/python3"
    (Or.inl rfl) rfl rfl rfl (Or.inl rfl) rfl
  exact ⟨rfl, h.1, h.2.2.2.1⟩

/-- C2 counterexample.  In `ensure_penv_with_uv` a failure of the `uv`
creation call is immediately fatal: the function exits with code 1 and
no `python -m venv` fallback is ever invoked, contradicting the claim
that every provisioning invocation falls back to the built-in mechanism
before declaring a fatal failure. -/
theorem C2_counterexample :
    (ensure_penv_with_uv ⟨false⟩ ⟨false, false⟩ ⟨[], []⟩ "/pio"
        "/usr/bin/python3").2.2 = .error (.exited 1) ∧
    (ensure_penv_with_uv ⟨false⟩ ⟨false, false⟩ ⟨[], []⟩ "/pio"
        "/usr/bin/python3").2.1.all
      (fun e => match e with | .runPyVenv _ _ => false | _ => true) = true :=
  ⟨rfl, rfl⟩

/-- Adding a file never removes an existing one. -/
theorem isFile_addFile_of (fs : FS) (p q : String) (h : fs.isFile q = true) :
    (fs.addFile p).isFile q = true := by
  simp only [FS.addFile, FS.isFile] at h ⊢
  split
  · exact h
  · simp only [List.elem_eq_mem, decide_eq_true_eq, List.mem_append] at h ⊢
    exact Or.inl h

/-- C3 (amended): only `setup_pipenv_in_package` confirms the python
executable before writing the marker — whenever it emits the
marker-write, the resulting state contains the executable (the write
sits behind the `os.path.isfile` check and the fatal exit).
`_setup_pipenv_minimal` and `ensure_penv_with_uv` instead write the
marker unconditionally as soon as the creation command returns success
(`uv.ok = true`, with no assumption that the command produced the
interpreter), with no such confirmation — see the counterexample for
runs of both where the marker lands in a state with no interpreter. -/
theorem C3_marker_confirmation (cfg : Config) (uv venv uvM venvM uvE : VenvCall)
    (fs fsM fsE : FS) (penv_dir pythonExe penv_dirM sysM pdE sysE : String)
    (hM : fsM.isFile (penv_dirM ++ "/pioarduino_py") = false ∨
          fsM.isFile (get_executable_path cfg penv_dirM "python") = false)
    (hMuv : uvM.ok = true)
    (hE : fsE.isFile ((pdE ++ "/penv") ++ "/pioarduino_py") = false ∨
          fsE.isFile (get_executable_path cfg (pdE ++ "/penv") "python") = false)
    (hEuv : uvE.ok = true) :
    (∀ p, Event.writeMarker p
        ∈ (setup_pipenv_in_package cfg uv venv fs penv_dir pythonExe).2.1 →
      (setup_pipenv_in_package cfg uv venv fs penv_dir pythonExe).1.isFile
        (get_executable_path cfg penv_dir "python") = true) ∧
    Event.writeMarker (penv_dirM ++ "/pioarduino_py")
      ∈ (_setup_pipenv_minimal cfg uvM venvM fsM penv_dirM sysM).2.1 ∧
    Event.writeMarker ((pdE ++ "/penv") ++ "/pioarduino_py")
      ∈ (ensure_penv_with_uv cfg uvE fsE pdE sysE).2.1 := by
  have hcondM : (!(fsM.isFile (penv_dirM ++ "/pioarduino_py"))
      || !(fsM.isFile (get_executable_path cfg penv_dirM "python"))) = true := by
    rcases hM with h | h <;> simp [h]
  have hcondE : (!(fsE.isFile ((pdE ++ "/penv") ++ "/pioarduino_py"))
      || !(fsE.isFile (get_executable_path cfg (pdE ++ "/penv") "python"))) = true := by
    rcases hE with h | h <;> simp [h]
  refine ⟨?_, ?_, ?_⟩
  · unfold setup_pipenv_in_package
    dsimp only
    repeat' split
    all_goals intro p hp
    all_goals try simp_all
    all_goals apply isFile_addFile_of
    all_goals simp_all [FS.isFile]
  · unfold _setup_pipenv_minimal
    dsimp only
    simp [hcondM, hMuv]
  · unfold ensure_penv_with_uv
    dsimp only
    simp [hcondE, hEuv]

/-- Witness for C3 (amended): on a concrete successful run of
`setup_pipenv_in_package` the marker write implies the interpreter is
present, while `_setup_pipenv_minimal` and `ensure_penv_with_uv` emit
the marker write as soon as the uv call reports success — for
`ensure_penv_with_uv` even though the call produced no interpreter. -/
theorem C3_witness :
    (FS.isFile (⟨[], []⟩ : FS) ("/pio/penv" ++ "/pioarduino_py") = false ∨
      FS.isFile (⟨[], []⟩ : FS) (get_executable_path ⟨false⟩ "/pio/penv" "python") = false) ∧
    (setup_pipenv_in_package ⟨false⟩ ⟨true, true⟩ ⟨true, true⟩ ⟨[], []⟩
        "/pio/penv" "/usr/bin/python3").1.isFile
      (get_executable_path ⟨false⟩ "/pio/penv" "python") = true ∧
    Event.writeMarker ("/pio/penv" ++ "/pioarduino_py")
      ∈ (_setup_pipenv_minimal ⟨false⟩ ⟨true, true⟩ ⟨true, true⟩ ⟨[], []⟩
          "/pio/penv" "/usr/bin/python3").2.1 ∧
    Event.writeMarker (("/pio" ++ "/penv") ++ "/pioarduino_py")
      ∈ (ensure_penv_with_uv ⟨false⟩ ⟨true, false⟩ ⟨[], []⟩ "/pio"
          "/usr/bin/python3").2.1 := by
  have h := C3_marker_confirmation ⟨false⟩ ⟨true, true⟩ ⟨true, true⟩ ⟨true, true⟩
    ⟨true, true⟩ ⟨true, false⟩ ⟨[], []⟩ ⟨[], []⟩ ⟨[], []⟩ "/pio/penv"
    "/usr/bin/python3" "/pio/penv" "/usr/bin/python3" "/pio" "/usr/bin/python3"
    (Or.inl rfl) rfl (Or.inl rfl) rfl
  exact ⟨Or.inl rfl, h.1 "/pio/penv/pioarduino_py" (by decide), h.2.1, h.2.2⟩

/-- C3 counterexample.  When the `uv venv` call returns success without
producing the python binary, both `_setup_pipenv_minimal` and
`ensure_penv_with_uv` still write the health marker: each final state
contains the marker but no python executable, so the marker is not
"written only as the final step, after the environment's python
executable has been confirmed to exist". -/
theorem C3_counterexample :
    (_setup_pipenv_minimal ⟨false⟩ ⟨true, false⟩ ⟨true, true⟩ ⟨[], []⟩
        "/pio/penv" "/usr/bin/python3").1.isFile "/pio/penv/pioarduino_py" = true ∧
    (_setup_pipenv_minimal ⟨false⟩ ⟨true, false⟩ ⟨true, true⟩ ⟨[], []⟩
        "/pio/penv" "/usr/bin/python3").1.isFile "/pio/penv/bin/python" = false ∧
    (_setup_pipenv_minimal ⟨false⟩ ⟨true, false⟩ ⟨true, true⟩ ⟨[], []⟩
        "/pio/penv" "/usr/bin/python3").2.1.contains
      (Event.writeMarker "/pio/penv/pioarduino_py") = true ∧
    (_setup_pipenv_minimal ⟨false⟩ ⟨true, false⟩ ⟨true, true⟩ ⟨[], []⟩
        "/pio/penv" "/usr/bin/python3").2.2 = .ok (some "uv") ∧
    (ensure_penv_with_uv ⟨false⟩ ⟨true, false⟩ ⟨[], []⟩ "/pio"
        "/usr/bin/python3").1.isFile "/pio/penv/pioarduino_py" = true ∧
    (ensure_penv_with_uv ⟨false⟩ ⟨true, false⟩ ⟨[], []⟩ "/pio"
        "/usr/bin/python3").1.isFile "/pio/penv/bin/python" = false ∧
    (ensure_penv_with_uv ⟨false⟩ ⟨true, false⟩ ⟨[], []⟩ "/pio"
        "/usr/bin/python3").2.1.contains
      (Event.writeMarker "/pio/penv/pioarduino_py") = true ∧
    (ensure_penv_with_uv ⟨false⟩ ⟨true, false⟩ ⟨[], []⟩ "/pio"
        "/usr/bin/python3").2.2 = .ok "/pio/penv" :=
  ⟨rfl, rfl, rfl, rfl, rfl, rfl, rfl, rfl⟩

/-- C4 counterexample.  With the `tool-esptoolpy` package directory
absent (`platform.get_package_dir` returned `None`), the SCons-mode
installer `install_esptool` is not a silent no-op: it writes a stderr
diagnostic and terminates the process with exit code 1. -/
theorem C4_counterexample :
    install_esptool ⟨[], []⟩ none .raisedProbe true
      = ([Event.errMsg "Error: tool-esptoolpy package directory not found"],
         .error (.exited 1)) := rfl

/-- The first field produced by `splitAllAux` extends the accumulator. -/
theorem splitAllAux_shape (sep : Char) :
    ∀ (cs acc : List Char), ∃ t tail,
      splitAllAux sep cs acc = (acc.reverse ++ t) :: tail := by
  intro cs
  induction cs with
  | nil => exact fun acc => ⟨[], [], by simp [splitAllAux]⟩
  | cons c cs ih =>
    intro acc
    by_cases hc : c = sep
    · exact ⟨[], splitAllAux sep cs [], by simp [splitAllAux, hc]⟩
    · obtain ⟨t, tail, ht⟩ := ih (c :: acc)
      refine ⟨c :: t, tail, ?_⟩
      simp only [splitAllAux, if_neg hc, ht, List.reverse_cons, List.append_assoc,
        List.cons_append, List.nil_append]

/-- A block starting with `h` never matches `NAIVE_SPEC`. -/
theorem naiveSpecMatch_h (t : List Char) : naiveSpecMatch ('h' :: t) = none := rfl

/-- `SimpleSpec` parsing fails (raises `ValueError`) on any expression
starting with the letter `h` — in particular on every `http(s)` URL. -/
theorem simpleSpecClause_h_none (url : String) (h : url.toList.head? = some 'h') :
    simpleSpecClause url = none := by
  obtain ⟨cs, hcs⟩ : ∃ cs, url.toList = 'h' :: cs := by
    cases hu : url.toList with
    | nil => rw [hu] at h; cases h
    | cons c cs =>
      rw [hu] at h
      simp only [List.head?_cons, Option.some.injEq] at h
      exact ⟨cs, by rw [h]⟩
  unfold simpleSpecClause splitAll
  rw [hcs]
  have hstep : splitAllAux ',' ('h' :: cs) [] = splitAllAux ',' cs ['h'] := by
    simp [splitAllAux]
  rw [hstep]
  obtain ⟨t, tail, ht⟩ := splitAllAux_shape ',' cs ['h']
  rw [ht]
  show simpleSpecGo (('h' :: t) :: tail) .always = none
  simp [simpleSpecGo, naiveSpecMatch_h]

/-- C5 (amended): the URL version-extraction rule applies only to the
manifest entry named `platformio`; for it, the decision is exact
equality of the normalised extracted token against the installed
version (never raising, with unextractable tokens treated as
satisfied elsewhere).  For any other installed package whose requirement
is an `http(s)` source URL, the code instead parses the URL as a
version range, which raises `ValueError`. -/
theorem C5_url_rule_platformio_only (ver : SemVer) (url : String)
    (h : url.toList.head? = some 'h') :
    get_packages_to_install
        [("platformio", "https://github.com/pioarduino/platformio-core/archive/refs/tags/v6.1.18.zip")]
        [("platformio", ver)]
      = .ok (if ver = ⟨6, 1, 18, [], [['z', 'i', 'p']]⟩ then [] else ["platformio"]) ∧
    get_packages_to_install [("beta", url)] [("beta", ver)]
      = .error "ValueError: invalid simple spec" := by
  constructor
  · by_cases hv : ver = ⟨6, 1, 18, [], [['z', 'i', 'p']]⟩
    · subst hv; rfl
    · rw [if_neg hv]
      show (if ver ≠ ⟨6, 1, 18, [], [['z', 'i', 'p']]⟩ then
              (get_packages_to_install [] [("platformio", ver)]).map
                (fun l => "platformio" :: l)
            else get_packages_to_install [] [("platformio", ver)])
          = Except.ok ["platformio"]
      rw [if_pos hv]
      rfl
  · have hs := simpleSpecClause_h_none url h
    show (match simpleSpecClause url with
          | none => (Except.error "ValueError: invalid simple spec" :
              Except String (List String))
          | some c =>
            if !specMatch c ver then
              (get_packages_to_install [] [("beta", ver)]).map (fun l => "beta" :: l)
            else get_packages_to_install [] [("beta", ver)])
        = Except.error "ValueError: invalid simple spec"
    rw [hs]

/-- Witness for C5 (amended): instantiated at the spec's own example
URL and a concrete installed version. -/
theorem C5_witness :
    ("https://example.org/pkg/v2.5.0.zip".toList.head? = some 'h') ∧
    get_packages_to_install
        [("platformio", "https://github.com/pioarduino/platformio-core/archive/refs/tags/v6.1.18.zip")]
        [("platformio", (⟨2, 5, 0, [], []⟩ : SemVer))]
      = .ok ["platformio"] ∧
    get_packages_to_install [("beta", "https://example.org/pkg/v2.5.0.zip")]
        [("beta", (⟨2, 5, 0, [], []⟩ : SemVer))]
      = .error "ValueError: invalid simple spec" := by
  have h := C5_url_rule_platformio_only ⟨2, 5, 0, [], []⟩
    "https://example.org/pkg/v2.5.0.zip" rfl
  refine ⟨rfl, ?_, h.2⟩
  have h1 := h.1
  rw [if_neg (by decide)] at h1
  exact h1

/-- C5 counterexample.  For an installed package named `beta` whose
requirement is a source URL, the decision is not made by URL version
extraction: the code falls into the range branch, and
`semantic_version.SimpleSpec` raises on the URL — the decision raises
instead of comparing, because the URL rule is gated on the name
`platformio`. -/
theorem C5_counterexample :
    get_packages_to_install [("beta", "https://example.org/pkg/v2.5.0.zip")]
        [("beta", ⟨2, 5, 0, [], []⟩)]
      = .error "ValueError: invalid simple spec" := rfl

/-- A run of well-formed entries is folded completely, with no
exception. -/
theorem listLoop_good : ∀ (entries : List JEntry) (acc : InstalledDict),
    (∀ e ∈ entries, (entryParse e).isSome = true) →
    listLoop entries acc = (entryFold acc entries, false) := by
  intro entries
  induction entries with
  | nil => intro acc _; rfl
  | cons e rest ih =>
    intro acc h
    have he := h e (List.mem_cons_self e rest)
    rcases e with ⟨n?, v?⟩
    cases n? with
    | none => simp [entryParse] at he
    | some n =>
      cases v? with
      | none => simp [entryParse] at he
      | some v =>
        cases hp : pepver_to_semver v with
        | error m => simp [entryParse, hp] at he
        | ok sv =>
          simp only [listLoop, hp]
          rw [ih _ (fun x hx => h x (List.mem_cons_of_mem _ hx))]
          simp [entryFold, entryParse, hp]

/-- The loop stops at the first failing entry, keeping only the dict
accumulated before it and recording that an exception occurred. -/
theorem listLoop_stops (bad : JEntry) (hb : entryParse bad = none) :
    ∀ (good rest : List JEntry) (acc : InstalledDict),
      (∀ e ∈ good, (entryParse e).isSome = true) →
      listLoop (good ++ bad :: rest) acc = (entryFold acc good, true) := by
  intro good
  induction good with
  | nil =>
    intro rest acc _
    rcases bad with ⟨n?, v?⟩
    cases n? with
    | none => rfl
    | some n =>
      cases v? with
      | none => rfl
      | some v =>
        cases hp : pepver_to_semver v with
        | error m => simp [listLoop, hp, entryFold]
        | ok sv => simp [entryParse, hp] at hb
  | cons e good ih =>
    intro rest acc h
    have he := h e (List.mem_cons_self e good)
    rcases e with ⟨n?, v?⟩
    cases n? with
    | none => simp [entryParse] at he
    | some n =>
      cases v? with
      | none => simp [entryParse] at he
      | some v =>
        cases hp : pepver_to_semver v with
        | error m => simp [entryParse, hp] at he
        | ok sv =>
          simp only [List.cons_append, listLoop, hp, List.append_eq]
          rw [ih rest _ (fun x hx => h x (List.mem_cons_of_mem _ hx))]
          simp [entryFold, entryParse, hp]

/-- C7 (amended): an invocation failure, a non-zero exit, empty output,
or malformed JSON all yield an empty installed set (never raising); but
a per-entry failure — a version string that fails normalization, or a
missing key — aborts the loop and returns the set accumulated so far,
which is partially populated rather than empty whenever earlier entries
parsed. -/
theorem C7_listing_outcomes (rc : Nat) (se : Bool) (p : Option (List JEntry))
    (good rest : List JEntry) (bad : JEntry)
    (hrc : rc ≠ 0 ∨ se = true)
    (hg : ∀ e ∈ good, (entryParse e).isSome = true)
    (hb : entryParse bad = none) :
    (_get_installed_uv_packages .raisedCall).2 = [] ∧
    (_get_installed_uv_packages (.ran rc se p)).2 = [] ∧
    (_get_installed_uv_packages (.ran 0 false none)).2 = [] ∧
    (_get_installed_uv_packages (.ran 0 false (some good))).2 = entryFold [] good ∧
    (_get_installed_uv_packages (.ran 0 false (some (good ++ bad :: rest)))).2
      = entryFold [] good := by
  refine ⟨rfl, ?_, rfl, ?_, ?_⟩
  · unfold _get_installed_uv_packages
    rcases hrc with h | h <;> simp [h]
  · simp [_get_installed_uv_packages, listLoop_good good [] hg]
  · simp [_get_installed_uv_packages, listLoop_stops bad hb good rest [] hg]

/-- Witness for C7 (amended) at concrete inputs: a non-zero exit yields
the empty set, while a mid-list normalization failure yields the
nonempty partial set. -/
theorem C7_witness :
    entryParse ⟨some "B", some "not a version"⟩ = none ∧
    (_get_installed_uv_packages (.ran 1 false none)).2 = [] ∧
    (_get_installed_uv_packages (.ran 0 false (some
        ([⟨some "A", some "1.0.0"⟩] ++ ⟨some "B", some "not a version"⟩ :: [])))).2
      = entryFold [] [⟨some "A", some "1.0.0"⟩] := by
  have h := C7_listing_outcomes 1 false none [⟨some "A", some "1.0.0"⟩] []
    ⟨some "B", some "not a version"⟩ (Or.inl (by decide))
    (fun e he => by
      simp only [List.mem_singleton] at he
      subst he
      rfl)
    rfl
  exact ⟨rfl, h.2.1, h.2.2.2.2⟩

/-- C7 counterexample.  A listing whose second entry has a version
string that fails normalization (`pepver_to_semver` raises on
`"not a version"`) does not yield an empty installed set: the loop stops
at the failing entry and the partially populated set accumulated so far
is returned. -/
theorem C7_counterexample :
    (_get_installed_uv_packages (.ran 0 false (some
        [⟨some "A", some "1.0.0"⟩, ⟨some "B", some "not a version"⟩]))).2
      = [("a", ⟨1, 0, 0, [], []⟩)] ∧
    ([("a", (⟨1, 0, 0, [], []⟩ : SemVer))] : InstalledDict) ≠ [] :=
  ⟨rfl, by simp⟩

/-- Pair form of `install_esptool_trace_benign` for rewriting match
equations. -/
theorem install_esptool_pair_benign (fs : FS) (pkgdir : Option String)
    (probe : ProbeOutcome) (ok : Bool) (evE : List Event) (res : Except Halt Unit)
    (h : install_esptool fs pkgdir probe ok = (evE, res)) :
    ∀ e ∈ evE, benignEvent e := by
  have hb := install_esptool_trace_benign fs pkgdir probe ok
  rw [h] at hb
  exact hb

/-- Pair form of `tl_install_trace_benign`. -/
theorem tl_install_pair_benign (fs : FS) (pkgdir : Option String)
    (probe : ProbeOutcome) (ok : Bool) (evE : List Event) (res : Except Halt Unit)
    (h : _install_esptool_from_tl_install fs pkgdir probe ok = (evE, res)) :
    ∀ e ∈ evE, benignEvent e := by
  have hb := tl_install_trace_benign fs pkgdir probe ok
  rw [h] at hb
  exact hb

/-- C8: whenever the connectivity probe reports offline and the
`GITHUB_ACTIONS` override is unset, dependency reconciliation is skipped
entirely — the warning is printed, no reconciliation action (uv presence
probe, uv install, package listing, batched install) occurs anywhere in
the run, and the dependency-failure exit cannot happen, setup continuing
into the esptool/certifi phases (with esptool disabled and a successful
certifi probe the run returns the penv paths); when the probe succeeds
or the override is set, the online reconciliation path is taken — its
first action, the uv presence probe, is in the trace. -/
theorem C8_offline_skip_online_force (cfg : Config) (sconsMode flag : Bool)
    (o : CoreOracle) (fs fs1 : FS) (pd sys penvd : String) (evA : List Event)
    (hph : corePhase1 cfg sconsMode o fs pd sys = (fs1, evA, .ok penvd))
    (hpy : fs1.isFile (get_executable_path cfg penvd "python") = true) :
    ((o.online = false ∧ github_actions o.envGithubActions = false) →
      Event.msg "Warning: No internet connection detected, Python dependency check will be skipped."
          ∈ (_setup_python_environment_core cfg sconsMode o fs pd sys flag).2.1 ∧
      (∀ e ∈ (_setup_python_environment_core cfg sconsMode o fs pd sys flag).2.1,
        e.isDepsEvent = false) ∧
      Event.errMsg "Error: Failed to install Python dependencies into penv"
          ∉ (_setup_python_environment_core cfg sconsMode o fs pd sys flag).2.1 ∧
      (flag = false → o.certifi.ok = true →
        (_setup_python_environment_core cfg sconsMode o fs pd sys flag).2.2
          = .ok (get_executable_path cfg penvd "python",
                 get_executable_path cfg penvd "esptool"))) ∧
    ((o.online = true ∨ github_actions o.envGithubActions = true) →
      Event.runUvVersionProbe
        ∈ (_setup_python_environment_core cfg sconsMode o fs pd sys flag).2.1) := by
  have hbenA : ∀ e ∈ evA, benignEvent e := by
    have h := corePhase1_trace_benign cfg sconsMode o fs pd sys
    rw [hph] at h
    exact h
  constructor
  · rintro ⟨hon, hgh⟩
    have hcond : (has_internet_connection o.online || github_actions o.envGithubActions) = false := by
      simp [has_internet_connection, hon, hgh]
    refine ⟨?_, ?_, ?_, ?_⟩
    · unfold _setup_python_environment_core
      rw [hph]
      dsimp only
      simp [hpy, hcond]
      repeat' split
      all_goals simp
    · intro e he
      unfold _setup_python_environment_core at he
      rw [hph] at he
      dsimp only at he
      cases flag <;> cases sconsMode <;>
        (try simp [hpy, hcond] at he) <;>
        repeat' split at he
      all_goals
        try simp only [List.mem_append, List.mem_cons, List.not_mem_nil, or_false,
          false_or] at he
      all_goals casesm* _ ∨ _
      all_goals
        first
          | exact (hbenA e (by assumption)).1
          | (subst_vars; rfl)
          | exact ((install_esptool_pair_benign _ _ _ _ _ _ (by assumption)) e (by assumption)).1
          | exact ((tl_install_pair_benign _ _ _ _ _ _ (by assumption)) e (by assumption)).1
          | exact (certifi_trace_benign _ e (by assumption)).1
    · intro he
      unfold _setup_python_environment_core at he
      rw [hph] at he
      dsimp only at he
      cases flag <;> cases sconsMode <;>
        (try simp [hpy, hcond] at he) <;>
        repeat' split at he
      all_goals
        try simp only [List.mem_append, List.mem_cons, List.not_mem_nil, or_false,
          false_or] at he
      all_goals casesm* _ ∨ _
      all_goals
        first
          | exact (hbenA _ (by assumption)).2.2 rfl
          | exact ((install_esptool_pair_benign _ _ _ _ _ _ (by assumption)) _ (by assumption)).2.2 rfl
          | exact ((tl_install_pair_benign _ _ _ _ _ _ (by assumption)) _ (by assumption)).2.2 rfl
          | exact (certifi_trace_benign _ _ (by assumption)).2.2 rfl
          | simp_all
    · rintro rfl hc
      unfold _setup_python_environment_core
      rw [hph]
      dsimp only
      simp [hpy, hcond, hc, _setup_certifi_env]
  · intro hon
    have hcond : (has_internet_connection o.online || github_actions o.envGithubActions) = true := by
      rcases hon with h | h <;> simp [has_internet_connection, h]
    rcases hid : install_python_deps o.deps (get_executable_path cfg penvd "python")
        (some (get_executable_path cfg penvd "uv")) with ⟨evD, resD⟩
    have hpm := install_python_deps_probe_mem o.deps
      (get_executable_path cfg penvd "python") (some (get_executable_path cfg penvd "uv"))
    rw [hid] at hpm
    unfold _setup_python_environment_core
    rw [hph]
    dsimp only
    simp [hpy, hcond]
    rw [hid]
    cases resD with
    | error h => simp [hpm]
    | ok b =>
      cases b
      · simp [hpm]
      · dsimp only
        repeat' split
        all_goals simp [hpm]

/-- Witness for C8: a healthy penv, offline probe, no override — the
warning is emitted and setup completes, returning the penv paths. -/
theorem C8_witness :
    corePhase1 ⟨false⟩ true offlineOracle fsHealthy "/pio" "/usr/bin/python3"
      = (fsHealthy, [], .ok ("/pio" ++ "/penv")) ∧
    fsHealthy.isFile (get_executable_path ⟨false⟩ ("/pio" ++ "/penv") "python") = true ∧
    Event.msg "Warning: No internet connection detected, Python dependency check will be skipped."
      ∈ (_setup_python_environment_core ⟨false⟩ true offlineOracle fsHealthy "/pio"
          "/usr/bin/python3" false).2.1 ∧
    (_setup_python_environment_core ⟨false⟩ true offlineOracle fsHealthy "/pio"
        "/usr/bin/python3" false).2.2
      = .ok (get_executable_path ⟨false⟩ ("/pio" ++ "/penv") "python",
             get_executable_path ⟨false⟩ ("/pio" ++ "/penv") "esptool") := by
  have h := C8_offline_skip_online_force ⟨false⟩ true false offlineOracle fsHealthy
    fsHealthy "/pio" "/usr/bin/python3" ("/pio" ++ "/penv") [] rfl rfl
  obtain ⟨hA, _⟩ := h
  obtain ⟨h1, _, _, h4⟩ := hA ⟨rfl, rfl⟩
  exact ⟨rfl, rfl, h1, h4 rfl rfl⟩

/-- C9 (code bug): after a fully successful reconciliation —
every manifest package installed at a satisfying version, platformio at
the pinned `6.1.18` — the second delta computation still selects
`platformio`, and a second run issues another batched install
invocation for the manifest URL.  The cause: `PLATFORMIO_URL_VERSION_RE`
lets the greedy `(?:[.-]\w+)?` group swallow `.zip`, so the expected
version becomes `6.1.18+zip`, which `semantic_version` equality (which
includes build metadata) never considers equal to the installed
`6.1.18`.  The regex's own trailing
`(?:\.(?:zip|tar\.gz|tar\.bz2))?$` group shows the extension was meant
to be stripped, and the spec requires the second run to select zero
packages. -/
theorem C9_second_run_reinstalls_platformio :
    get_packages_to_install python_deps
        (_get_installed_uv_packages (.ran 0 false (some postInstallListing))).2
      = .ok ["platformio"] ∧
    (install_python_deps ⟨true, true, .ran 0 false (some postInstallListing), true⟩
        "/pio/penv/bin/python" (some "/pio/penv/bin/uv")).1.contains
      (Event.runUvPipInstall
        ["https://github.com/pioarduino/platformio-core/archive/refs/tags/v6.1.18.zip"]) = true :=
  ⟨rfl, rfl⟩

end PenvSetup
